import Mathlib

/-!
# Verification of the dpservice-cli wire client

This development embeds the `client` package of dpservice-cli (the typed
resource-to-wire mapping and status/error propagation layer) together with the
parts of the command layer relevant to address-family tagging, and proves the
documented properties of that layer.

The `net/netip` standard-library collaborator (`Addr`, `Prefix`, `ParseAddr`,
`ParsePrefix`, `String`) is modelled executably below.  IPv4 addresses render
as dotted decimal and IPv6 addresses as eight colon-separated lowercase hex
groups (RFC 5952 zero-run compression is omitted; both the compressed and the
full form denote the same address and the full form is accepted by the Go
parser, so the round-trip behaviour relied upon by the client is preserved).
The parser is slightly more permissive than Go's (it accepts leading zeros);
no property proved here depends on that difference.
-/

/-- Address family tag of the wire protocol (`dpdkproto.IPVersion`). -/
inductive IPVersion where
  | IPv4
  | IPv6
deriving DecidableEq, Repr

/-- Model of `netip.Addr`: four IPv4 octets, eight IPv6 16-bit groups, or the
zero `netip.Addr` (Go's invalid zero value, present in zero-valued structs). -/
inductive Addr where
  | v4 (o0 o1 o2 o3 : Nat)
  | v6 (g0 g1 g2 g3 g4 g5 g6 g7 : Nat)
  | invalid
deriving DecidableEq, Repr

/-- Model of `netip.Addr.Is4`. -/
def Addr.is4 : Addr → Bool
  | .v4 _ _ _ _ => true
  | _ => false

/-- Model of `netip.Addr.Is6`. -/
def Addr.is6 : Addr → Bool
  | .v6 _ _ _ _ _ _ _ _ => true
  | _ => false

/-- Field bounds that every parsed `netip.Addr` satisfies by construction in Go
(the zero value is not a parsed address). -/
def Addr.valid : Addr → Prop
  | .v4 o0 o1 o2 o3 => o0 < 256 ∧ o1 < 256 ∧ o2 < 256 ∧ o3 < 256
  | .v6 g0 g1 g2 g3 g4 g5 g6 g7 =>
      g0 < 65536 ∧ g1 < 65536 ∧ g2 < 65536 ∧ g3 < 65536 ∧
      g4 < 65536 ∧ g5 < 65536 ∧ g6 < 65536 ∧ g7 < 65536
  | .invalid => False

instance : DecidablePred Addr.valid
  | .v4 o0 o1 o2 o3 =>
      inferInstanceAs (Decidable (o0 < 256 ∧ o1 < 256 ∧ o2 < 256 ∧ o3 < 256))
  | .v6 g0 g1 g2 g3 g4 g5 g6 g7 =>
      inferInstanceAs (Decidable (g0 < 65536 ∧ g1 < 65536 ∧ g2 < 65536 ∧ g3 < 65536 ∧
        g4 < 65536 ∧ g5 < 65536 ∧ g6 < 65536 ∧ g7 < 65536))
  | .invalid => inferInstanceAs (Decidable False)

/-- Model of `netip.Addr.BitLen` (0 for the zero value, as in Go). -/
def Addr.bitLen : Addr → Nat
  | .v4 _ _ _ _ => 32
  | .v6 _ _ _ _ _ _ _ _ => 128
  | .invalid => 0

/-- Digit characters `0`-`9`, `a`-`f` (lowercase, as Go renders hex). -/
def digitChar (d : Nat) : Char :=
  if d < 10 then Char.ofNat (48 + d) else Char.ofNat (87 + d)

/-- Numeric value of a digit character; accepts both hex cases like Go. -/
def digitVal (c : Char) : Option Nat :=
  if 48 ≤ c.toNat ∧ c.toNat ≤ 57 then some (c.toNat - 48)
  else if 97 ≤ c.toNat ∧ c.toNat ≤ 102 then some (c.toNat - 87)
  else if 65 ≤ c.toNat ∧ c.toNat ≤ 70 then some (c.toNat - 55)
  else none

/-- Big-endian digit rendering of `n` in base `b`, with explicit fuel so that
evaluation is by structural recursion. -/
def natToCharsAux (b : Nat) : Nat → Nat → List Char
  | 0, _ => []
  | fuel + 1, n =>
      if n = 0 then [] else natToCharsAux b fuel (n / b) ++ [digitChar (n % b)]

/-- Big-endian digit string of `n` in base `b` (zero renders as "0"). -/
def natToChars (b n : Nat) : List Char :=
  if n = 0 then [Char.ofNat 48] else natToCharsAux b (n + 1) n

/-- One step of numeric parsing: accumulate a digit, reject non-digits. -/
def parseStep (b : Nat) (acc : Option Nat) (c : Char) : Option Nat :=
  acc.bind fun n => (digitVal c).bind fun d => if d < b then some (b * n + d) else none

/-- Parse a nonempty digit string in base `b`. -/
def parseNatChars (b : Nat) (cs : List Char) : Option Nat :=
  if cs.isEmpty then none else cs.foldl (parseStep b) (some 0)

/-- Whether a character occurs in a list. -/
def hasChar (a : Char) : List Char → Bool
  | [] => false
  | c :: cs => c == a || hasChar a cs

/-- Splitting worker: `acc` is the current component reversed. -/
def splitSepAux (sep : Char) : List Char → List Char → List (List Char)
  | acc, [] => [acc.reverse]
  | acc, c :: cs =>
      if c = sep then acc.reverse :: splitSepAux sep [] cs
      else splitSepAux sep (c :: acc) cs

/-- Split a character list at every occurrence of `sep` (like `strings.Split`). -/
def splitSep (sep : Char) (cs : List Char) : List (List Char) :=
  splitSepAux sep [] cs

/-- Join components with a separator character. -/
def joinSep (sep : Char) : List (List Char) → List Char
  | [] => []
  | [p] => p
  | p :: q :: ps => p ++ sep :: joinSep sep (q :: ps)

/-- Model of `netip.Addr.String`: dotted decimal for IPv4, eight lowercase hex
groups for IPv6 (uncompressed form). -/
def addrToString : Addr → String
  | .v4 o0 o1 o2 o3 =>
      String.mk (joinSep '.' [natToChars 10 o0, natToChars 10 o1,
        natToChars 10 o2, natToChars 10 o3])
  | .v6 g0 g1 g2 g3 g4 g5 g6 g7 =>
      String.mk (joinSep ':' [natToChars 16 g0, natToChars 16 g1, natToChars 16 g2,
        natToChars 16 g3, natToChars 16 g4, natToChars 16 g5, natToChars 16 g6,
        natToChars 16 g7])
  | .invalid => "invalid IP"

/-- Model of `netip.ParseAddr`: a colon means IPv6 (eight hex groups), otherwise
a dotted quad is expected; out-of-range components are rejected. -/
def parseAddr (s : String) : Option Addr :=
  if hasChar ':' s.data then
    match (splitSep ':' s.data).map (parseNatChars 16) with
    | [some g0, some g1, some g2, some g3, some g4, some g5, some g6, some g7] =>
        if g0 < 65536 ∧ g1 < 65536 ∧ g2 < 65536 ∧ g3 < 65536 ∧
           g4 < 65536 ∧ g5 < 65536 ∧ g6 < 65536 ∧ g7 < 65536 then
          some (Addr.v6 g0 g1 g2 g3 g4 g5 g6 g7)
        else none
    | _ => none
  else
    match (splitSep '.' s.data).map (parseNatChars 10) with
    | [some o0, some o1, some o2, some o3] =>
        if o0 < 256 ∧ o1 < 256 ∧ o2 < 256 ∧ o3 < 256 then
          some (Addr.v4 o0 o1 o2 o3)
        else none
    | _ => none

/-- Model of `netip.Prefix`: an address plus a bit length. -/
structure IPNet where
  addr : Addr
  bits : Nat
deriving DecidableEq, Repr

/-- Model of `netip.Prefix.String`: "address/bits". -/
def ipNetToString (p : IPNet) : String :=
  addrToString p.addr ++ "/" ++ String.mk (natToChars 10 p.bits)

/-- Model of `netip.ParsePrefix`: split at '/', parse the address and the
decimal bit count, require the bit count to fit the address family. -/
def parseIPNet (s : String) : Option IPNet :=
  match splitSep '/' s.data with
  | [a, b] =>
      (parseAddr (String.mk a)).bind fun addr =>
        (parseNatChars 10 b).bind fun bits =>
          if bits ≤ addr.bitLen then some ⟨addr, bits⟩ else none
  | _ => none

theorem digitVal_digitChar : ∀ d, d < 16 → digitVal (digitChar d) = some d := by
  decide

theorem digitChar_not_sep :
    ∀ d, d < 16 → digitChar d ≠ '.' ∧ digitChar d ≠ ':' ∧ digitChar d ≠ '/' := by
  decide

theorem foldl_parseStep_natToCharsAux (b : Nat) (hb2 : 2 ≤ b) (hb16 : b ≤ 16) :
    ∀ fuel n, n ≤ fuel → ∀ acc : Nat,
      ∃ L, List.foldl (parseStep b) (some acc) (natToCharsAux b fuel n) =
        some (acc * b ^ L + n) := by
  intro fuel
  induction fuel with
  | zero =>
      intro n hn acc
      have h0 : n = 0 := Nat.le_zero.mp hn
      subst h0
      exact ⟨0, by simp [natToCharsAux]⟩
  | succ fuel ih =>
      intro n hn acc
      by_cases h0 : n = 0
      · subst h0
        exact ⟨0, by simp [natToCharsAux]⟩
      · have hb0 : 0 < b := by omega
        have hdiv : n / b ≤ fuel := by
          have hlt : n / b < n := Nat.div_lt_self (Nat.pos_of_ne_zero h0) (by omega)
          omega
        obtain ⟨L, hL⟩ := ih (n / b) hdiv acc
        refine ⟨L + 1, ?_⟩
        have hmod16 : n % b < 16 := lt_of_lt_of_le (Nat.mod_lt _ hb0) hb16
        have hmodb : n % b < b := Nat.mod_lt _ hb0
        have hdm : b * (n / b) + n % b = n := Nat.div_add_mod n b
        simp only [natToCharsAux, if_neg h0, List.foldl_append, hL, List.foldl_cons,
          List.foldl_nil, parseStep, Option.bind_some, digitVal_digitChar _ hmod16,
          Option.some_bind, if_pos hmodb]
        congr 1
        calc b * (acc * b ^ L + n / b) + n % b
            = acc * (b ^ L * b) + (b * (n / b) + n % b) := by ring
          _ = acc * b ^ (L + 1) + n := by rw [hdm, pow_succ]

theorem natToCharsAux_ne_nil (b fuel n : Nat) (h0 : n ≠ 0) (hf : fuel ≠ 0) :
    natToCharsAux b fuel n ≠ [] := by
  cases fuel with
  | zero => exact absurd rfl hf
  | succ fuel => simp [natToCharsAux, if_neg h0]

theorem parseNatChars_natToChars (b : Nat) (hb2 : 2 ≤ b) (hb16 : b ≤ 16) (n : Nat) :
    parseNatChars b (natToChars b n) = some n := by
  by_cases h0 : n = 0
  · subst h0
    have hdv : digitVal (Char.ofNat 48) = some 0 := rfl
    have hb0 : 0 < b := by omega
    simp [natToChars, parseNatChars, parseStep, hdv, hb0]
  · obtain ⟨L, hL⟩ := foldl_parseStep_natToCharsAux b hb2 hb16 (n + 1) n (Nat.le_succ n) 0
    have hne : natToCharsAux b (n + 1) n ≠ [] :=
      natToCharsAux_ne_nil b (n + 1) n h0 (Nat.succ_ne_zero n)
    simp only [natToChars, if_neg h0, parseNatChars, List.isEmpty_eq_true, hne,
      if_false, hL, Nat.zero_mul, Nat.zero_add]

theorem mem_natToCharsAux (b : Nat) (hb2 : 2 ≤ b) (hb16 : b ≤ 16) :
    ∀ fuel n c, c ∈ natToCharsAux b fuel n → ∃ d, d < 16 ∧ c = digitChar d := by
  intro fuel
  induction fuel with
  | zero => intro n c hc; simp [natToCharsAux] at hc
  | succ fuel ih =>
      intro n c hc
      by_cases h0 : n = 0
      · simp [natToCharsAux, h0] at hc
      · simp only [natToCharsAux, if_neg h0, List.mem_append, List.mem_singleton] at hc
        rcases hc with hc | hc
        · exact ih (n / b) c hc
        · refine ⟨n % b, ?_, hc⟩
          have hb0 : 0 < b := by omega
          exact lt_of_lt_of_le (Nat.mod_lt _ hb0) hb16

theorem mem_natToChars (b : Nat) (hb2 : 2 ≤ b) (hb16 : b ≤ 16) (n : Nat) (c : Char)
    (hc : c ∈ natToChars b n) : ∃ d, d < 16 ∧ c = digitChar d := by
  by_cases h0 : n = 0
  · simp only [natToChars, if_pos h0, List.mem_singleton] at hc
    exact ⟨0, by norm_num, by simpa [digitChar] using hc⟩
  · exact mem_natToCharsAux b hb2 hb16 (n + 1) n c
      (by simpa [natToChars, if_neg h0] using hc)

theorem hasChar_iff_mem (a : Char) : ∀ cs : List Char, hasChar a cs = true ↔ a ∈ cs := by
  intro cs
  induction cs with
  | nil => simp [hasChar]
  | cons c cs ih =>
      simp only [hasChar, Bool.or_eq_true, beq_iff_eq, ih, List.mem_cons]
      constructor
      · rintro (h | h)
        · exact Or.inl h.symm
        · exact Or.inr h
      · rintro (h | h)
        · exact Or.inl h.symm
        · exact Or.inr h

theorem splitSepAux_cons_self (sep : Char) (acc cs : List Char) :
    splitSepAux sep acc (sep :: cs) = acc.reverse :: splitSepAux sep [] cs := by
  simp [splitSepAux]

theorem splitSepAux_append (sep : Char) :
    ∀ p : List Char, sep ∉ p → ∀ acc rest,
      splitSepAux sep acc (p ++ rest) = splitSepAux sep (p.reverse ++ acc) rest := by
  intro p
  induction p with
  | nil => intro _ acc rest; simp
  | cons c p ih =>
      intro hsep acc rest
      have hc : ¬c = sep := fun h => hsep (h ▸ List.mem_cons_self c p)
      have hrec := ih (fun h => hsep (List.mem_cons_of_mem c h)) (c :: acc) rest
      simp only [List.cons_append, splitSepAux, if_neg hc, List.reverse_cons,
        List.append_assoc, List.singleton_append] at *
      exact hrec

theorem mem_joinSep (sep : Char) :
    ∀ l : List (List Char), ∀ c, c ∈ joinSep sep l → c = sep ∨ ∃ p ∈ l, c ∈ p := by
  intro l
  induction l with
  | nil => intro c hc; simp [joinSep] at hc
  | cons p ps ih =>
      intro c hc
      cases ps with
      | nil =>
          simp only [joinSep] at hc
          exact Or.inr ⟨p, List.mem_singleton_self p, hc⟩
      | cons q qs =>
          simp only [joinSep, List.mem_append, List.mem_cons] at hc
          rcases hc with hc | hc | hc
          · exact Or.inr ⟨p, List.mem_cons_self p _, hc⟩
          · exact Or.inl hc
          · rcases ih c hc with h | ⟨r, hr, hcr⟩
            · exact Or.inl h
            · exact Or.inr ⟨r, List.mem_cons_of_mem p hr, hcr⟩

theorem splitSep_joinSep (sep : Char) :
    ∀ l : List (List Char), (∀ p ∈ l, sep ∉ p) → l ≠ [] →
      splitSep sep (joinSep sep l) = l := by
  intro l
  induction l with
  | nil => intro _ h; exact absurd rfl h
  | cons p ps ih =>
      intro hsep _
      have hp : sep ∉ p := hsep p (List.mem_cons_self p ps)
      cases ps with
      | nil =>
          have h : splitSepAux sep [] (p ++ []) = [p] := by
            rw [splitSepAux_append sep p hp [] []]
            simp [splitSepAux]
          show splitSepAux sep [] p = [p]
          simpa using h
      | cons q qs =>
          have hrec := ih (fun r hr => hsep r (List.mem_cons_of_mem p hr)) (by simp)
          show splitSepAux sep [] (p ++ sep :: joinSep sep (q :: qs)) = p :: q :: qs
          rw [splitSepAux_append sep p hp [] (sep :: joinSep sep (q :: qs)),
            splitSepAux_cons_self]
          simp only [List.append_nil, List.reverse_reverse]
          show p :: splitSep sep (joinSep sep (q :: qs)) = p :: q :: qs
          rw [hrec]

theorem stringData_mk (cs : List Char) : (String.mk cs).data = cs := rfl

theorem parseAddr_addrToString (a : Addr) (ha : a.valid) :
    parseAddr (addrToString a) = some a := by
  cases a with
  | v4 o0 o1 o2 o3 =>
      obtain ⟨h0, h1, h2, h3⟩ := ha
      have hdig : ∀ p ∈ [natToChars 10 o0, natToChars 10 o1, natToChars 10 o2,
          natToChars 10 o3], ∀ c ∈ p, ∃ d, d < 16 ∧ c = digitChar d := by
        intro p hp c hc
        simp only [List.mem_cons, List.not_mem_nil, or_false] at hp
        rcases hp with h | h | h | h <;> subst h <;>
          exact mem_natToChars 10 (by norm_num) (by norm_num) _ c hc
      have hnodot : ∀ p ∈ [natToChars 10 o0, natToChars 10 o1, natToChars 10 o2,
          natToChars 10 o3], '.' ∉ p := by
        intro p hp hmem
        obtain ⟨d, hd, hc⟩ := hdig p hp '.' hmem
        exact (digitChar_not_sep d hd).1 hc.symm
      have hnocolon : hasChar ':' (joinSep '.' [natToChars 10 o0, natToChars 10 o1,
          natToChars 10 o2, natToChars 10 o3]) = false := by
        refine Bool.eq_false_iff.mpr fun h => ?_
        rcases mem_joinSep '.' _ ':' ((hasChar_iff_mem _ _).mp h) with h' | ⟨p, hp, hcp⟩
        · exact absurd h' (by decide)
        · obtain ⟨d, hd, hc⟩ := hdig p hp ':' hcp
          exact (digitChar_not_sep d hd).2.1 hc.symm
      have hsplit := splitSep_joinSep '.' [natToChars 10 o0, natToChars 10 o1,
          natToChars 10 o2, natToChars 10 o3] hnodot (by simp)
      have hmap : List.map (parseNatChars 10) [natToChars 10 o0, natToChars 10 o1,
          natToChars 10 o2, natToChars 10 o3] = [some o0, some o1, some o2, some o3] := by
        simp [parseNatChars_natToChars 10 (by norm_num) (by norm_num)]
      simp only [addrToString, parseAddr, stringData_mk, hnocolon, Bool.false_eq_true,
        if_false, hsplit, hmap]
      simp [h0, h1, h2, h3]
  | v6 g0 g1 g2 g3 g4 g5 g6 g7 =>
      obtain ⟨h0, h1, h2, h3, h4, h5, h6, h7⟩ := ha
      have hdig : ∀ p ∈ [natToChars 16 g0, natToChars 16 g1, natToChars 16 g2,
          natToChars 16 g3, natToChars 16 g4, natToChars 16 g5, natToChars 16 g6,
          natToChars 16 g7], ∀ c ∈ p, ∃ d, d < 16 ∧ c = digitChar d := by
        intro p hp c hc
        simp only [List.mem_cons, List.not_mem_nil, or_false] at hp
        rcases hp with h | h | h | h | h | h | h | h <;> subst h <;>
          exact mem_natToChars 16 (by norm_num) (by norm_num) _ c hc
      have hnocolon : ∀ p ∈ [natToChars 16 g0, natToChars 16 g1, natToChars 16 g2,
          natToChars 16 g3, natToChars 16 g4, natToChars 16 g5, natToChars 16 g6,
          natToChars 16 g7], ':' ∉ p := by
        intro p hp hmem
        obtain ⟨d, hd, hc⟩ := hdig p hp ':' hmem
        exact (digitChar_not_sep d hd).2.1 hc.symm
      have hhas : hasChar ':' (joinSep ':' [natToChars 16 g0, natToChars 16 g1,
          natToChars 16 g2, natToChars 16 g3, natToChars 16 g4, natToChars 16 g5,
          natToChars 16 g6, natToChars 16 g7]) = true := by
        refine (hasChar_iff_mem _ _).mpr ?_
        simp [joinSep]
      have hsplit := splitSep_joinSep ':' [natToChars 16 g0, natToChars 16 g1,
          natToChars 16 g2, natToChars 16 g3, natToChars 16 g4, natToChars 16 g5,
          natToChars 16 g6, natToChars 16 g7] hnocolon (by simp)
      have hmap : List.map (parseNatChars 16) [natToChars 16 g0, natToChars 16 g1,
          natToChars 16 g2, natToChars 16 g3, natToChars 16 g4, natToChars 16 g5,
          natToChars 16 g6, natToChars 16 g7] = [some g0, some g1, some g2, some g3,
          some g4, some g5, some g6, some g7] := by
        simp [parseNatChars_natToChars 16 (by norm_num) (by norm_num)]
      simp only [addrToString, parseAddr, stringData_mk, hhas, if_true, hsplit, hmap]
      simp [h0, h1, h2, h3, h4, h5, h6, h7]
  | invalid => exact ha.elim

example : parseAddr "10.20.30.40" = some (.v4 10 20 30 40) := by decide
example : parseAddr "ff80:0:0:0:0:0:0:1" = some (.v6 65408 0 0 0 0 0 0 1) := by decide
example : parseAddr "" = none := by decide
example : parseAddr "notanip" = none := by decide
example : addrToString (.v4 10 20 30 40) = "10.20.30.40" := by decide
example : addrToString (.v6 65408 0 0 0 0 0 0 1) = "ff80:0:0:0:0:0:0:1" := by decide
example : parseIPNet "10.0.0.0/24" = some ⟨.v4 10 0 0 0, 24⟩ := by decide
example : parseIPNet "ff80:0:0:0:0:0:0:1/64" = some ⟨.v6 65408 0 0 0 0 0 0 1, 64⟩ := by
  decide

/-- Wire status sub-structure (`dpdkproto.Status`): the embedded error
code/message pair present on every wire response. -/
structure Status where
  error : Nat
  message : String
deriving DecidableEq, Repr

/-- Typed errors of the client layer: `apierrors.StatusError` for a
service-reported failure, and the `fmt.Errorf` decode failures for a response
field that fails to parse. -/
inductive Err where
  | statusError (code : Nat) (message : String)
  | decodeError (message : String)
deriving DecidableEq, Repr

/-- `apierrors.NewStatusError(code, message)`. -/
def newStatusError (code : Nat) (message : String) : Err :=
  Err.statusError code message

/-- `api.TypeMeta`. -/
structure TypeMeta where
  kind : String
deriving DecidableEq, Repr

def LoadBalancerKind : String := "LoadBalancer"
def LoadBalancerTargetKind : String := "LoadBalancerTarget"
def LoadBalancerTargetListKind : String := "LoadBalancerTargetList"
def InterfaceKind : String := "Interface"
def InterfaceListKind : String := "InterfaceList"
def VirtualIPKind : String := "VirtualIP"
def PrefixKind : String := "Prefix"
def PrefixListKind : String := "PrefixList"
def RouteKind : String := "Route"
def RouteListKind : String := "RouteList"
def NatKind : String := "Nat"

/-- `api.LBPort` (protocol number plus port). -/
structure LBPort where
  protocol : Nat
  port : Nat
deriving DecidableEq, Repr

/-- `api.LoadBalancerMeta`. -/
structure LoadBalancerMeta where
  id : String
deriving DecidableEq, Repr

/-- `api.LoadBalancerSpec` (fields as constructed by the command layer and
read by the client: VNI, VIP, ports, service-assigned underlay route). -/
structure LoadBalancerSpec where
  vni : Nat
  lbVipIP : Addr
  lbports : List LBPort
  underlayRoute : Option Addr
deriving DecidableEq, Repr

/-- `api.LoadBalancerStatus`. -/
structure LoadBalancerStatus where
  error : Nat
  message : String
deriving DecidableEq, Repr

/-- `api.LoadBalancer`. -/
structure LoadBalancer where
  typeMeta : TypeMeta
  meta : LoadBalancerMeta
  spec : LoadBalancerSpec
  status : LoadBalancerStatus
deriving DecidableEq, Repr

/-- `api.PrefixMeta` (the embedded identity of `api.Prefix`: owning interface
and the prefix value; the client reads `prefix.InterfaceID` and
`prefix.Prefix` through this embedding).  The Go field `Prefix` is named
`pfx` here. -/
structure PrefixMeta where
  interfaceID : String
  pfx : IPNet
deriving DecidableEq, Repr

/-- `api.PrefixSpec` (service-assigned underlay route). -/
structure PrefixSpec where
  underlayRoute : Option Addr
deriving DecidableEq, Repr

/-- `api.Prefix` (named `PrefixEntry` here). -/
structure PrefixEntry where
  typeMeta : TypeMeta
  meta : PrefixMeta
  spec : PrefixSpec
deriving DecidableEq, Repr

/-- `api.PrefixList`. -/
structure PrefixList where
  typeMeta : TypeMeta
  items : List PrefixEntry
deriving DecidableEq, Repr

/-- `api.LoadBalancerTargetMeta`. -/
structure LoadBalancerTargetMeta where
  id : String
deriving DecidableEq, Repr

/-- `api.LoadBalancerTargetSpec`. -/
structure LoadBalancerTargetSpec where
  targetIP : Addr
deriving DecidableEq, Repr

/-- `api.LoadBalancerTarget`. -/
structure LoadBalancerTarget where
  typeMeta : TypeMeta
  meta : LoadBalancerTargetMeta
  spec : LoadBalancerTargetSpec
deriving DecidableEq, Repr

/-- `api.LoadBalancerTargetList`. -/
structure LoadBalancerTargetList where
  typeMeta : TypeMeta
  items : List LoadBalancerTarget
deriving DecidableEq, Repr

/-- `api.InterfaceMeta`. -/
structure InterfaceMeta where
  id : String
deriving DecidableEq, Repr

/-- `api.InterfaceSpec` (VNI, device name and the interface addresses). -/
structure InterfaceSpec where
  vni : Nat
  device : String
  ips : List Addr
deriving DecidableEq, Repr

/-- `api.InterfaceStatus` (service-assigned underlay IP). -/
structure InterfaceStatus where
  underlayIP : Option Addr
deriving DecidableEq, Repr

/-- `api.Interface`. -/
structure Interface where
  typeMeta : TypeMeta
  meta : InterfaceMeta
  spec : InterfaceSpec
  status : InterfaceStatus
deriving DecidableEq, Repr

/-- `api.InterfaceList`. -/
structure InterfaceList where
  typeMeta : TypeMeta
  items : List Interface
deriving DecidableEq, Repr

/-- `api.VirtualIPMeta` (embedded identity of `api.VirtualIP`; the client reads
`virtualIP.InterfaceID` and `virtualIP.IP` through this embedding). -/
structure VirtualIPMeta where
  interfaceID : String
  ip : Addr
deriving DecidableEq, Repr

/-- `api.VirtualIPSpec` (service-assigned underlay route). -/
structure VirtualIPSpec where
  underlayRoute : Option Addr
deriving DecidableEq, Repr

/-- `api.VirtualIP`. -/
structure VirtualIP where
  typeMeta : TypeMeta
  meta : VirtualIPMeta
  spec : VirtualIPSpec
deriving DecidableEq, Repr

/-- `api.RouteNextHop`. -/
structure RouteNextHop where
  vni : Nat
  ip : Addr
deriving DecidableEq, Repr

/-- `api.RouteMeta` (embedded identity of `api.Route`: the client reads
`route.VNI`, `route.Prefix` (named `pfx` here) and `route.NextHop` through
this embedding). -/
structure RouteMeta where
  vni : Nat
  pfx : IPNet
  nextHop : RouteNextHop
deriving DecidableEq, Repr

/-- `api.RouteSpec` (empty: a route has no spec beyond its identity). -/
structure RouteSpec where
deriving DecidableEq, Repr

/-- `api.Route`. -/
structure Route where
  typeMeta : TypeMeta
  meta : RouteMeta
  spec : RouteSpec
deriving DecidableEq, Repr

/-- `api.RouteList`. -/
structure RouteList where
  typeMeta : TypeMeta
  items : List Route
deriving DecidableEq, Repr

/-- `api.NatMeta`. -/
structure NatMeta where
  interfaceID : String
deriving DecidableEq, Repr

/-- `api.NatSpec`. -/
structure NatSpec where
  natVIPIP : Addr
  minPort : Nat
  maxPort : Nat
  underlayRoute : Option Addr
deriving DecidableEq, Repr

/-- `api.NatStatus`. -/
structure NatStatus where
  error : Nat
  message : String
deriving DecidableEq, Repr

/-- `api.Nat` (named `ApiNat` to avoid the core `Nat`). -/
structure ApiNat where
  typeMeta : TypeMeta
  meta : NatMeta
  spec : NatSpec
  status : NatStatus
deriving DecidableEq, Repr

/-- `dpdkproto.LBIP` (version tag plus textual address bytes). -/
structure ProtoLBIP where
  ipVersion : IPVersion
  address : String
deriving DecidableEq, Repr

/-- `dpdkproto.LBPort`. -/
structure ProtoLBPort where
  port : Nat
  protocol : Nat
deriving DecidableEq, Repr

/-- `dpdkproto.Prefix` (named `ProtoPrefixMsg` here; the Go field `Address`
holds the textual address bytes). -/
structure ProtoPrefixMsg where
  ipVersion : IPVersion
  address : String
  prefixLength : Nat
deriving DecidableEq, Repr

/-- `dpdkproto.LBPrefix`. -/
structure LBPrefixMsg where
  ipVersion : IPVersion
  address : String
  prefixLength : Nat
deriving DecidableEq, Repr

/-- `dpdkproto.Route` (named `ProtoRouteMsg` here). -/
structure ProtoRouteMsg where
  ipVersion : IPVersion
  weight : Nat
  pfx : ProtoPrefixMsg
  nexthopVNI : Nat
  nexthopAddress : String
deriving DecidableEq, Repr

/-- `dpdkproto.VNIRouteMsg`. -/
structure VNIRouteMsg where
  vni : Nat
  route : ProtoRouteMsg
deriving DecidableEq, Repr

/-- `dpdkproto.InterfaceVIPIP`. -/
structure InterfaceVIPIP where
  ipVersion : IPVersion
  address : String
deriving DecidableEq, Repr

/-- `dpdkproto.NATIP`. -/
structure NATIP where
  ipVersion : IPVersion
  address : String
deriving DecidableEq, Repr

/-- `dpdkproto.IPConfig` (primary address plus version tag). -/
structure ProtoIPConfig where
  ipVersion : IPVersion
  primaryAddress : String
deriving DecidableEq, Repr

/-- Modelled from the spec: `api.NetIPAddrToProtoIPVersion` (dpdk/api is not
under src/) — "the tag is computed from the semantic address's family". -/
def netIPAddrToProtoIPVersion (a : Addr) : IPVersion :=
  if a.is4 then IPVersion.IPv4 else IPVersion.IPv6

/-- Modelled from the spec: `api.LbipToProtoLbip` (dpdk/api is not under src/)
pairs the raw textual representation with the family-derived version tag. -/
def lbipToProtoLbip (a : Addr) : ProtoLBIP :=
  { ipVersion := netIPAddrToProtoIPVersion a, address := addrToString a }

/-- Modelled from the spec: `api.ProtoLbipToLbip` (dpdk/api is not under src/)
reconstructs the IP from its textual wire representation; it reports no error
in Go, so an unparsable text yields the zero address. -/
def protoLbipToLbip (l : ProtoLBIP) : Addr :=
  (parseAddr l.address).getD Addr.invalid

/-- Modelled from the spec: `netiputil.FindIPv4` (netiputil is not under src/)
— the first IPv4 address of the list, or the zero address. -/
def findIPv4 : List Addr → Addr
  | [] => .invalid
  | a :: rest => if a.is4 then a else findIPv4 rest

/-- Modelled from the spec: `netiputil.FindIPv6` (netiputil is not under src/)
— the first IPv6 address of the list, or the zero address. -/
def findIPv6 : List Addr → Addr
  | [] => .invalid
  | a :: rest => if a.is6 then a else findIPv6 rest

/-- Modelled from the spec: `api.NetIPAddrToProtoIPConfig` (dpdk/api is not
under src/) — a present (valid) address becomes a primary-address config
tagged with its own family; the zero address yields no config. -/
def netIPAddrToProtoIPConfig (a : Addr) : Option ProtoIPConfig :=
  if a = .invalid then none
  else some { ipVersion := netIPAddrToProtoIPVersion a, primaryAddress := addrToString a }

/-- Modelled from the spec: `api.ProtoPrefixToPrefix` (dpdk/api is not under
src/) decodes a wire prefix for the given owning interface: the textual
address must parse as a valid IP address, failure to parse being a decode
error; the bit length is taken from the wire field. -/
def protoPrefixToPrefixEntry (interfaceID : String) (m : ProtoPrefixMsg) :
    Except Err PrefixEntry :=
  match parseAddr m.address with
  | none => .error (.decodeError "error parsing dpdk prefix address")
  | some addr =>
      .ok { typeMeta := ⟨PrefixKind⟩,
            meta := { interfaceID := interfaceID, pfx := ⟨addr, m.prefixLength⟩ },
            spec := { underlayRoute := none } }

/-- Modelled from the spec: `api.ProtoLBPrefixToProtoPrefix` (dpdk/api is not
under src/) converts a load-balancer wire prefix to a plain wire prefix,
field for field. -/
def protoLBPrefixToProtoPrefixMsg (m : LBPrefixMsg) : ProtoPrefixMsg :=
  { ipVersion := m.ipVersion, address := m.address, prefixLength := m.prefixLength }

/-- `dpdkproto.Interface` as used by the translator (modelled): identity,
VNI, device and textual addresses. -/
structure ProtoInterface where
  interfaceID : String
  vni : Nat
  deviceName : String
  primaryIPv4 : String
  primaryIPv6 : String
  underlayRoute : String
deriving DecidableEq, Repr

/-- Modelled from the spec: `api.ProtoInterfaceToInterface` (dpdk/api is not
under src/) decodes a wire interface into the fully populated semantic
struct; a field that fails to parse is a decode error. -/
def protoInterfaceToInterface (m : ProtoInterface) : Except Err Interface :=
  match parseAddr m.primaryIPv4, parseAddr m.primaryIPv6, parseAddr m.underlayRoute with
  | some ip4, some ip6, some ur =>
      .ok { typeMeta := ⟨InterfaceKind⟩,
            meta := { id := m.interfaceID },
            spec := { vni := m.vni, device := m.deviceName, ips := [ip4, ip6] },
            status := { underlayIP := some ur } }
  | _, _, _ => .error (.decodeError "error parsing interface address")

/-- `GetInterfaceVIPResponse` as used by the client (modelled): status plus
the VIP address with its version tag. -/
structure GetVirtualIPResponse where
  status : Status
  ip : InterfaceVIPIP
deriving DecidableEq, Repr

/-- Modelled from the spec: `api.ProtoVirtualIPToVirtualIP` (dpdk/api is not
under src/) reconstructs the IP-plus-version pair of the virtual IP for the
given interface; an unparsable address is a decode error. -/
def protoVirtualIPToVirtualIP (interfaceID : String) (res : GetVirtualIPResponse) :
    Except Err VirtualIP :=
  match parseAddr res.ip.address with
  | none => .error (.decodeError "error parsing virtual ip address")
  | some addr =>
      .ok { typeMeta := ⟨VirtualIPKind⟩,
            meta := { interfaceID := interfaceID, ip := addr },
            spec := { underlayRoute := none } }

/-- `GetNATResponse` as used by the client (modelled): status, the NAT VIP
with version tag, the port range and the underlay route. -/
structure GetNatResponse where
  status : Status
  natVIPIP : NATIP
  minPort : Nat
  maxPort : Nat
  underlayRoute : String
deriving DecidableEq, Repr

/-- Modelled from the spec: `api.ProtoNatToNat` (dpdk/api is not under src/)
decodes a wire NAT entry for the given interface; an unparsable address is a
decode error. -/
def protoNatToNat (res : GetNatResponse) (interfaceID : String) : Except Err ApiNat :=
  match parseAddr res.natVIPIP.address, parseAddr res.underlayRoute with
  | some vip, some ur =>
      .ok { typeMeta := ⟨NatKind⟩,
            meta := { interfaceID := interfaceID },
            spec := { natVIPIP := vip, minPort := res.minPort, maxPort := res.maxPort,
                      underlayRoute := some ur },
            status := { error := 0, message := "" } }
  | _, _ => .error (.decodeError "error parsing nat address")

/-- `GetLoadBalancerResponse` as used by the client (modelled): status, VNI,
VIP, ports and underlay route. -/
structure GetLoadBalancerResponse where
  status : Status
  vni : Nat
  lbVipIP : ProtoLBIP
  lbports : List ProtoLBPort
  underlayRoute : String
deriving DecidableEq, Repr

/-- Modelled from the spec: `api.ProtoLoadBalancerToLoadBalancer` (dpdk/api is
not under src/) decodes a wire load balancer for the given ID; an unparsable
address is a decode error. -/
def protoLoadBalancerToLoadBalancer (res : GetLoadBalancerResponse) (id : String) :
    Except Err LoadBalancer :=
  match parseAddr res.lbVipIP.address, parseAddr res.underlayRoute with
  | some vip, some ur =>
      .ok { typeMeta := ⟨LoadBalancerKind⟩,
            meta := { id := id },
            spec := { vni := res.vni, lbVipIP := vip,
                      lbports := res.lbports.map fun p => ⟨p.protocol, p.port⟩,
                      underlayRoute := some ur },
            status := { error := 0, message := "" } }
  | _, _ => .error (.decodeError "error parsing load balancer address")

/-- Modelled from the spec: `api.ProtoRouteToRoute` (dpdk/api is not under
src/) decodes a wire route within the given VNI; an unparsable prefix or
next-hop address is a decode error. -/
def protoRouteToRoute (vni : Nat) (m : ProtoRouteMsg) : Except Err Route :=
  match parseAddr m.pfx.address, parseAddr m.nexthopAddress with
  | some addr, some nh =>
      .ok { typeMeta := ⟨RouteKind⟩,
            meta := { vni := vni, pfx := ⟨addr, m.pfx.prefixLength⟩,
                      nextHop := { vni := m.nexthopVNI, ip := nh } },
            spec := {} }
  | _, _ => .error (.decodeError "error parsing route address")

/-- The element-by-element translation loop shared by the List operations
(`make` plus indexed assignment in Go): the first failing element aborts the
whole translation with its error. -/
def translateAll (tr : α → Except Err β) : List α → Except Err (List β)
  | [] => .ok []
  | x :: xs =>
      match tr x with
      | .error e => .error e
      | .ok y =>
          match translateAll tr xs with
          | .error e => .error e
          | .ok ys => .ok (y :: ys)

/-- `client.GetLoadBalancer` (part_000 lines 70-80), response processing after
a successful remote call. -/
def getLoadBalancerCall (id : String) (res : GetLoadBalancerResponse) :
    Except Err LoadBalancer :=
  if res.status.error ≠ 0 then
    .error (newStatusError res.status.error res.status.message)
  else protoLoadBalancerToLoadBalancer res id

/-- `dpdkproto.CreateLoadBalancerRequest`. -/
structure CreateLoadBalancerRequest where
  loadBalancerID : String
  vni : Nat
  lbVipIP : ProtoLBIP
  lbports : List ProtoLBPort
deriving DecidableEq, Repr

/-- The wire request built by `client.CreateLoadBalancer` (part_000 lines
83-93). -/
def createLoadBalancerRequest (lb : LoadBalancer) : CreateLoadBalancerRequest :=
  { loadBalancerID := lb.meta.id
    vni := lb.spec.vni
    lbVipIP := lbipToProtoLbip lb.spec.lbVipIP
    lbports := lb.spec.lbports.map fun p => { port := p.port, protocol := p.protocol } }

/-- `CreateLoadBalancerResponse` as used by the client (modelled): status plus
the assigned underlay route. -/
structure CreateLoadBalancerResponse where
  status : Status
  underlayRoute : String
deriving DecidableEq, Repr

/-- `client.CreateLoadBalancer` (part_000 lines 82-116), response processing.
The first component is the final state of the caller-supplied struct — Go
passes `lb` by pointer and line 105 assigns `lb.Spec.UnderlayRoute` — and the
second is the returned value. -/
def createLoadBalancerCall (lb : LoadBalancer) (res : CreateLoadBalancerResponse) :
    LoadBalancer × Except Err LoadBalancer :=
  if res.status.error ≠ 0 then
    (lb, .error (newStatusError res.status.error res.status.message))
  else
    match parseAddr res.underlayRoute with
    | none => (lb, .error (.decodeError "error parsing underlay route"))
    | some underlayRoute =>
        let lb' : LoadBalancer :=
          { lb with spec := { lb.spec with underlayRoute := some underlayRoute } }
        (lb', .ok { typeMeta := ⟨LoadBalancerKind⟩
                    meta := lb'.meta
                    spec := lb'.spec
                    status := { error := res.status.error
                                message := res.status.message } })

/-- `client.DeleteLoadBalancer` (part_000 lines 118-127): the response is the
bare status message. -/
def deleteLoadBalancerCall (id : String) (res : Status) : Except Err Unit :=
  if res.error ≠ 0 then .error (newStatusError res.error res.message) else .ok ()

/-- `ListInterfaceLoadBalancerPrefixesResponse` as used by the client
(modelled; the status sub-structure is present on every wire response per the
data-model invariants, though this operation never reads it). -/
structure ListLBPrefixesResponse where
  status : Status
  prefixes : List LBPrefixMsg
deriving DecidableEq, Repr

/-- `client.ListLoadBalancerPrefixes` (part_000 lines 129-151): translates
element by element with no status inspection. -/
def listLoadBalancerPrefixesCall (interfaceID : String) (res : ListLBPrefixesResponse) :
    Except Err PrefixList :=
  match translateAll
      (fun p => protoPrefixToPrefixEntry interfaceID (protoLBPrefixToProtoPrefixMsg p))
      res.prefixes with
  | .error e => .error e
  | .ok items => .ok { typeMeta := ⟨PrefixListKind⟩, items := items }

/-- `dpdkproto.CreateInterfaceLoadBalancerPrefixRequest`. -/
structure CreateLBPrefixRequest where
  interfaceID : String
  pfx : ProtoPrefixMsg
deriving DecidableEq, Repr

/-- The wire request built by `client.CreateLoadBalancerPrefix` (part_000
lines 154-163). -/
def createLoadBalancerPrefixRequest (p : PrefixEntry) : CreateLBPrefixRequest :=
  { interfaceID := p.meta.interfaceID
    pfx := { ipVersion := netIPAddrToProtoIPVersion p.meta.pfx.addr
             address := addrToString p.meta.pfx.addr
             prefixLength := p.meta.pfx.bits } }

/-- `CreateInterfaceLoadBalancerPrefixResponse` as used by the client
(modelled): only the status is read. -/
structure CreateLBPrefixResponse where
  status : Status
deriving DecidableEq, Repr

/-- `client.CreateLoadBalancerPrefix` (part_000 lines 153-175), response
processing. -/
def createLoadBalancerPrefixCall (p : PrefixEntry) (res : CreateLBPrefixResponse) :
    Except Err PrefixEntry :=
  if res.status.error ≠ 0 then
    .error (newStatusError res.status.error res.status.message)
  else .ok { typeMeta := ⟨PrefixKind⟩, meta := p.meta, spec := p.spec }

/-- `dpdkproto.DeleteInterfaceLoadBalancerPrefixRequest`. -/
structure DeleteLBPrefixRequest where
  interfaceID : String
  pfx : ProtoPrefixMsg
deriving DecidableEq, Repr

/-- The wire request built by `client.DeleteLoadBalancerPrefix` (part_000
lines 178-187). -/
def deleteLoadBalancerPrefixRequest (interfaceID : String) (pfx : IPNet) :
    DeleteLBPrefixRequest :=
  { interfaceID := interfaceID
    pfx := { ipVersion := netIPAddrToProtoIPVersion pfx.addr
             address := addrToString pfx.addr
             prefixLength := pfx.bits } }

/-- `client.DeleteLoadBalancerPrefix` (part_000 lines 177-195), response
processing. -/
def deleteLoadBalancerPrefixCall (interfaceID : String) (pfx : IPNet) (res : Status) :
    Except Err Unit :=
  if res.error ≠ 0 then .error (newStatusError res.error res.message) else .ok ()

/-- `GetLoadBalancerTargetsResponse` as used by the client (modelled). -/
structure GetLoadBalancerTargetsResponse where
  status : Status
  targetIPs : List ProtoLBIP
deriving DecidableEq, Repr

/-- `client.GetLoadBalancerTargets` (part_000 lines 197-222), response
processing: status check, then a total per-element translation. -/
def getLoadBalancerTargetsCall (loadBalancerID : String)
    (res : GetLoadBalancerTargetsResponse) : Except Err LoadBalancerTargetList :=
  if res.status.error ≠ 0 then
    .error (newStatusError res.status.error res.status.message)
  else
    .ok { typeMeta := ⟨LoadBalancerTargetListKind⟩
          items := res.targetIPs.map fun t =>
            { typeMeta := ⟨LoadBalancerTargetKind⟩
              meta := { id := loadBalancerID }
              spec := { targetIP := protoLbipToLbip t } } }

/-- `dpdkproto.AddLoadBalancerTargetRequest`. -/
structure AddLoadBalancerTargetRequest where
  loadBalancerID : String
  targetIP : ProtoLBIP
deriving DecidableEq, Repr

/-- The wire request built by `client.CreateLoadBalancerTarget` (part_000
lines 225-228). -/
def createLoadBalancerTargetRequest (t : LoadBalancerTarget) :
    AddLoadBalancerTargetRequest :=
  { loadBalancerID := t.meta.id
    targetIP := lbipToProtoLbip t.spec.targetIP }

/-- `client.CreateLoadBalancerTarget` (part_000 lines 224-241), response
processing (the response is the bare status message). -/
def createLoadBalancerTargetCall (t : LoadBalancerTarget) (res : Status) :
    Except Err LoadBalancerTarget :=
  if res.error ≠ 0 then .error (newStatusError res.error res.message)
  else .ok { typeMeta := ⟨LoadBalancerTargetKind⟩, meta := t.meta, spec := t.spec }

/-- `client.DeleteLoadBalancerTarget` (part_000 lines 243-255), response
processing. -/
def deleteLoadBalancerTargetCall (id : String) (targetIP : Addr) (res : Status) :
    Except Err Unit :=
  if res.error ≠ 0 then .error (newStatusError res.error res.message) else .ok ()

/-- `GetInterfaceResponse` as used by the client (modelled). -/
structure GetInterfaceResponse where
  status : Status
  iface : ProtoInterface
deriving DecidableEq, Repr

/-- `client.GetInterface` (part_000 lines 257-266), response processing. -/
def getInterfaceCall (res : GetInterfaceResponse) : Except Err Interface :=
  if res.status.error ≠ 0 then
    .error (newStatusError res.status.error res.status.message)
  else protoInterfaceToInterface res.iface

/-- `ListInterfacesResponse` as used by the client (modelled; status present
per the data-model invariants but never read by this operation). -/
structure ListInterfacesResponse where
  status : Status
  interfaces : List ProtoInterface
deriving DecidableEq, Repr

/-- `client.ListInterfaces` (part_000 lines 268-288): translates element by
element with no status inspection. -/
def listInterfacesCall (res : ListInterfacesResponse) : Except Err InterfaceList :=
  match translateAll protoInterfaceToInterface res.interfaces with
  | .error e => .error e
  | .ok items => .ok { typeMeta := ⟨InterfaceListKind⟩, items := items }

/-- `dpdkproto.CreateInterfaceRequest`. -/
structure CreateInterfaceRequest where
  interfaceType : String
  interfaceID : String
  vni : Nat
  ipv4Config : Option ProtoIPConfig
  ipv6Config : Option ProtoIPConfig
  deviceName : String
deriving DecidableEq, Repr

/-- The wire request built by `client.CreateInterface` (part_000 lines
291-298). -/
def createInterfaceRequest (iface : Interface) : CreateInterfaceRequest :=
  { interfaceType := "VirtualInterface"
    interfaceID := iface.meta.id
    vni := iface.spec.vni
    ipv4Config := netIPAddrToProtoIPConfig (findIPv4 iface.spec.ips)
    ipv6Config := netIPAddrToProtoIPConfig (findIPv6 iface.spec.ips)
    deviceName := iface.spec.device }

/-- The inner message of `CreateInterfaceResponse` (`res.GetResponse()`),
modelled with the fields the client reads. -/
structure CreateInterfaceInner where
  status : Status
  underlayRoute : String
deriving DecidableEq, Repr

/-- `CreateInterfaceResponse` as used by the client (modelled). -/
structure CreateInterfaceResponse where
  response : CreateInterfaceInner
deriving DecidableEq, Repr

/-- `client.CreateInterface` (part_000 lines 290-319), response processing. -/
def createInterfaceCall (iface : Interface) (res : CreateInterfaceResponse) :
    Except Err Interface :=
  if res.response.status.error ≠ 0 then
    .error (newStatusError res.response.status.error res.response.status.message)
  else
    match parseAddr res.response.underlayRoute with
    | none => .error (.decodeError "error parsing underlay route")
    | some underlayIP =>
        .ok { typeMeta := ⟨InterfaceKind⟩
              meta := iface.meta
              spec := iface.spec
              status := { underlayIP := some underlayIP } }

/-- `client.DeleteInterface` (part_000 lines 321-330), response processing. -/
def deleteInterfaceCall (name : String) (res : Status) : Except Err Unit :=
  if res.error ≠ 0 then .error (newStatusError res.error res.message) else .ok ()

/-- `client.GetVirtualIP` (part_000 lines 332-344), response processing. -/
def getVirtualIPCall (interfaceName : String) (res : GetVirtualIPResponse) :
    Except Err VirtualIP :=
  if res.status.error ≠ 0 then
    .error (newStatusError res.status.error res.status.message)
  else protoVirtualIPToVirtualIP interfaceName res

/-- `dpdkproto.InterfaceVIPMsg`. -/
structure InterfaceVIPMsg where
  interfaceID : String
  vipIP : InterfaceVIPIP
deriving DecidableEq, Repr

/-- The wire request built by `client.CreateVirtualIP` (part_000 lines
347-353). -/
def createVirtualIPRequest (virtualIP : VirtualIP) : InterfaceVIPMsg :=
  { interfaceID := virtualIP.meta.interfaceID
    vipIP := { ipVersion := netIPAddrToProtoIPVersion virtualIP.meta.ip
               address := addrToString virtualIP.meta.ip } }

/-- `AddInterfaceVIPResponse` as used by the client (modelled): only the
status is read. -/
structure CreateVirtualIPResponse where
  status : Status
deriving DecidableEq, Repr

/-- `client.CreateVirtualIP` (part_000 lines 346-365), response processing:
the returned struct populates only the type meta and the spec, leaving the
identity metadata zero-valued. -/
def createVirtualIPCall (virtualIP : VirtualIP) (res : CreateVirtualIPResponse) :
    Except Err VirtualIP :=
  if res.status.error ≠ 0 then
    .error (newStatusError res.status.error res.status.message)
  else
    .ok { typeMeta := ⟨VirtualIPKind⟩
          meta := { interfaceID := "", ip := .invalid }
          spec := virtualIP.spec }

/-- `client.DeleteVirtualIP` (part_000 lines 367-378), response processing. -/
def deleteVirtualIPCall (interfaceID : String) (res : Status) : Except Err Unit :=
  if res.error ≠ 0 then .error (newStatusError res.error res.message) else .ok ()

/-- `ListInterfacePrefixesResponse` as used by the client (modelled; status
present per the data-model invariants but never read by this operation). -/
structure ListPrefixesResponse where
  status : Status
  prefixes : List ProtoPrefixMsg
deriving DecidableEq, Repr

/-- `client.ListPrefixes` (part_000 lines 380-402): translates element by
element with no status inspection. -/
def listPrefixesCall (interfaceID : String) (res : ListPrefixesResponse) :
    Except Err PrefixList :=
  match translateAll (protoPrefixToPrefixEntry interfaceID) res.prefixes with
  | .error e => .error e
  | .ok items => .ok { typeMeta := ⟨PrefixListKind⟩, items := items }

/-- `dpdkproto.InterfacePrefixMsg`. -/
structure InterfacePrefixMsg where
  interfaceID : String
  pfx : ProtoPrefixMsg
deriving DecidableEq, Repr

/-- The wire request built by `client.CreatePrefix` (part_000 lines 405-414):
the version tag and textual address both come from the prefix's own
address. -/
def createPrefixRequest (p : PrefixEntry) : InterfacePrefixMsg :=
  { interfaceID := p.meta.interfaceID
    pfx := { ipVersion := netIPAddrToProtoIPVersion p.meta.pfx.addr
             address := addrToString p.meta.pfx.addr
             prefixLength := p.meta.pfx.bits } }

/-- `AddInterfacePrefixResponse` as used by the client (modelled): only the
status is read. -/
structure CreatePrefixResponse where
  status : Status
deriving DecidableEq, Repr

/-- `client.CreatePrefix` (part_000 lines 404-426), response processing. -/
def createPrefixCall (p : PrefixEntry) (res : CreatePrefixResponse) :
    Except Err PrefixEntry :=
  if res.status.error ≠ 0 then
    .error (newStatusError res.status.error res.status.message)
  else .ok { typeMeta := ⟨PrefixKind⟩, meta := p.meta, spec := p.spec }

/-- The wire request built by `client.DeletePrefix` (part_000 lines 429-438). -/
def deletePrefixRequest (interfaceID : String) (pfx : IPNet) : InterfacePrefixMsg :=
  { interfaceID := interfaceID
    pfx := { ipVersion := netIPAddrToProtoIPVersion pfx.addr
             address := addrToString pfx.addr
             prefixLength := pfx.bits } }

/-- `client.DeletePrefix` (part_000 lines 428-446), response processing. -/
def deletePrefixCall (interfaceID : String) (pfx : IPNet) (res : Status) :
    Except Err Unit :=
  if res.error ≠ 0 then .error (newStatusError res.error res.message) else .ok ()

/-- The wire request built by `client.CreateRoute` (part_000 lines 449-462):
the route's version tag comes from the next hop's own IP, the prefix's tag
from the prefix's own address, the weight is the constant 100, and the
prefix address is the full `Prefix.String()` text. -/
def createRouteRequest (route : Route) : VNIRouteMsg :=
  { vni := route.meta.vni
    route := { ipVersion := netIPAddrToProtoIPVersion route.meta.nextHop.ip
               weight := 100
               pfx := { ipVersion := netIPAddrToProtoIPVersion route.meta.pfx.addr
                        address := ipNetToString route.meta.pfx
                        prefixLength := route.meta.pfx.bits }
               nexthopVNI := route.meta.nextHop.vni
               nexthopAddress := addrToString route.meta.nextHop.ip } }

/-- `client.CreateRoute` (part_000 lines 448-473), response processing (the
response is the bare status message): the returned struct populates only the
type meta and the (empty) spec, leaving the identity metadata zero-valued. -/
def createRouteCall (route : Route) (res : Status) : Except Err Route :=
  if res.error ≠ 0 then .error (newStatusError res.error res.message)
  else
    .ok { typeMeta := ⟨RouteKind⟩
          meta := { vni := 0, pfx := ⟨.invalid, 0⟩, nextHop := { vni := 0, ip := .invalid } }
          spec := {} }

/-- The wire request built by `client.DeleteRoute` (part_000 lines 476-489):
exactly the caller-supplied 4-tuple with the constant weight. -/
def deleteRouteRequest (vni : Nat) (pfx : IPNet) (nextHopVNI : Nat) (nextHopIP : Addr) :
    VNIRouteMsg :=
  { vni := vni
    route := { ipVersion := netIPAddrToProtoIPVersion nextHopIP
               weight := 100
               pfx := { ipVersion := netIPAddrToProtoIPVersion pfx.addr
                        address := ipNetToString pfx
                        prefixLength := pfx.bits }
               nexthopVNI := nextHopVNI
               nexthopAddress := addrToString nextHopIP } }

/-- `client.DeleteRoute` (part_000 lines 475-497), response processing. -/
def deleteRouteCall (vni : Nat) (pfx : IPNet) (nextHopVNI : Nat) (nextHopIP : Addr)
    (res : Status) : Except Err Unit :=
  if res.error ≠ 0 then .error (newStatusError res.error res.message) else .ok ()

/-- `ListRoutesResponse` as used by the client (modelled; status present per
the data-model invariants but never read by this operation). -/
structure ListRoutesResponse where
  status : Status
  routes : List ProtoRouteMsg
deriving DecidableEq, Repr

/-- `client.ListRoutes` (part_000 lines 499-521): translates element by
element with no status inspection. -/
def listRoutesCall (vni : Nat) (res : ListRoutesResponse) : Except Err RouteList :=
  match translateAll (protoRouteToRoute vni) res.routes with
  | .error e => .error e
  | .ok items => .ok { typeMeta := ⟨RouteListKind⟩, items := items }

/-- `client.GetNat` (part_000 lines 523-533), response processing. -/
def getNatCall (interfaceID : String) (res : GetNatResponse) : Except Err ApiNat :=
  if res.status.error ≠ 0 then
    .error (newStatusError res.status.error res.status.message)
  else protoNatToNat res interfaceID

/-- `dpdkproto.AddNATRequest`. -/
structure AddNatRequest where
  interfaceID : String
  natVIPIP : NATIP
  minPort : Nat
  maxPort : Nat
deriving DecidableEq, Repr

/-- The wire request built by `client.CreateNat` (part_000 lines 536-544). -/
def createNatRequest (nat : ApiNat) : AddNatRequest :=
  { interfaceID := nat.meta.interfaceID
    natVIPIP := { ipVersion := netIPAddrToProtoIPVersion nat.spec.natVIPIP
                  address := addrToString nat.spec.natVIPIP }
    minPort := nat.spec.minPort
    maxPort := nat.spec.maxPort }

/-- `AddNATResponse` as used by the client (modelled). -/
structure CreateNatResponse where
  status : Status
  underlayRoute : String
deriving DecidableEq, Repr

/-- `client.CreateNat` (part_000 lines 535-567), response processing.  The
first component is the final state of the caller-supplied struct — Go passes
`nat` by pointer and line 556 assigns `nat.Spec.UnderlayRoute` — and the
second is the returned value. -/
def createNatCall (nat : ApiNat) (res : CreateNatResponse) :
    ApiNat × Except Err ApiNat :=
  if res.status.error ≠ 0 then
    (nat, .error (newStatusError res.status.error res.status.message))
  else
    match parseAddr res.underlayRoute with
    | none => (nat, .error (.decodeError "error parsing underlay route"))
    | some underlayRoute =>
        let nat' : ApiNat :=
          { nat with spec := { nat.spec with underlayRoute := some underlayRoute } }
        (nat', .ok { typeMeta := ⟨NatKind⟩
                     meta := nat'.meta
                     spec := nat'.spec
                     status := { error := res.status.error
                                 message := res.status.message } })

/-- The wire prefix built by the `addPrefixCmd` command (src/cmd/prefix_add.go
lines 40-63): the version tag is chosen by which flag was supplied — IPv4
when the `--ipv4` flag text is nonempty, IPv6 otherwise — while the address
text comes from whatever the flag text parses to.  `none` models the
process exit taken on a parse error. -/
def addPrefixCmdBuild (ipv4 ipv6 : String) : Option ProtoPrefixMsg :=
  if ipv4 ≠ "" then
    (parseIPNet ipv4).map fun ipPfx =>
      { ipVersion := IPVersion.IPv4
        address := addrToString ipPfx.addr
        prefixLength := ipPfx.bits }
  else
    (parseIPNet ipv6).map fun ipPfx =>
      { ipVersion := IPVersion.IPv6
        address := addrToString ipPfx.addr
        prefixLength := ipPfx.bits }

theorem translateAll_ok_length (tr : α → Except Err β) :
    ∀ xs ys, translateAll tr xs = .ok ys → ys.length = xs.length := by
  intro xs
  induction xs with
  | nil =>
      intro ys h
      simp only [translateAll, Except.ok.injEq] at h
      subst h
      rfl
  | cons x xs ih =>
      intro ys h
      rcases htr : tr x with e | y
      · simp [translateAll, htr] at h
      · rcases hrec : translateAll tr xs with e | ys'
        · simp [translateAll, htr, hrec] at h
        · simp only [translateAll, htr, hrec, Except.ok.injEq] at h
          subst h
          simp [ih ys' hrec]

theorem translateAll_ok_get (tr : α → Except Err β) :
    ∀ xs ys, translateAll tr xs = .ok ys →
      ∀ i (hi : i < xs.length) (hj : i < ys.length),
        tr (xs.get ⟨i, hi⟩) = .ok (ys.get ⟨i, hj⟩) := by
  intro xs
  induction xs with
  | nil => intro ys h i hi hj; exact absurd hi (by simp)
  | cons x xs ih =>
      intro ys h i hi hj
      rcases htr : tr x with e | y
      · simp [translateAll, htr] at h
      · rcases hrec : translateAll tr xs with e | ys'
        · simp [translateAll, htr, hrec] at h
        · simp only [translateAll, htr, hrec, Except.ok.injEq] at h
          subst h
          cases i with
          | zero => simpa using htr
          | succ i =>
              exact ih ys' hrec i (by simp at hi; omega) (by simp at hj; omega)

theorem translateAll_ok_exists (tr : α → Except Err β) :
    ∀ xs, (∀ x ∈ xs, ∃ y, tr x = .ok y) → ∃ ys, translateAll tr xs = .ok ys := by
  intro xs
  induction xs with
  | nil => intro _; exact ⟨[], rfl⟩
  | cons x xs ih =>
      intro hall
      obtain ⟨y, hy⟩ := hall x (List.mem_cons_self x xs)
      obtain ⟨ys, hys⟩ := ih fun z hz => hall z (List.mem_cons_of_mem x hz)
      exact ⟨y :: ys, by simp [translateAll, hy, hys]⟩

theorem translateAll_error_first (tr : α → Except Err β) :
    ∀ xs i (hi : i < xs.length) e, tr (xs.get ⟨i, hi⟩) = .error e →
      (∀ j (hj : j < xs.length), j < i → ∃ y, tr (xs.get ⟨j, hj⟩) = .ok y) →
      translateAll tr xs = .error e := by
  intro xs
  induction xs with
  | nil => intro i hi; exact absurd hi (by simp)
  | cons x xs ih =>
      intro i hi e herr hok
      cases i with
      | zero =>
          have herr' : tr x = Except.error e := herr
          simp [translateAll, herr']
      | succ i =>
          obtain ⟨y, hy⟩ := hok 0 (by simp) (Nat.succ_pos i)
          have hy' : tr x = Except.ok y := hy
          have hok' : ∀ j (hj : j < xs.length), j < i →
              ∃ z, tr (xs.get ⟨j, hj⟩) = .ok z := by
            intro j hj hji
            obtain ⟨z, hz⟩ := hok (j + 1) (by simp [Nat.succ_lt_succ hj])
              (Nat.succ_lt_succ hji)
            exact ⟨z, hz⟩
          have hi' : i < xs.length := by simp at hi; omega
          have herr' : tr (xs.get ⟨i, hi'⟩) = Except.error e := herr
          have hrec := ih i hi' e herr' hok'
          simp [translateAll, hy', hrec]

theorem translateAll_error_mem (tr : α → Except Err β) :
    ∀ xs e, translateAll tr xs = .error e → ∃ x ∈ xs, tr x = .error e := by
  intro xs
  induction xs with
  | nil => intro e h; simp [translateAll] at h
  | cons x xs ih =>
      intro e h
      rcases htr : tr x with e' | y
      · simp only [translateAll, htr] at h
        obtain rfl : e' = e := by injection h
        exact ⟨x, List.mem_cons_self x xs, htr⟩
      · rcases hrec : translateAll tr xs with e' | ys
        · simp only [translateAll, htr, hrec] at h
          obtain rfl : e' = e := by injection h
          obtain ⟨z, hz, hze⟩ := ih e' hrec
          exact ⟨z, List.mem_cons_of_mem x hz, hze⟩
        · simp [translateAll, htr, hrec] at h

theorem protoPrefixToPrefixEntry_no_statusError (i : String) (m : ProtoPrefixMsg)
    (c : Nat) (msg : String) :
    protoPrefixToPrefixEntry i m ≠ .error (.statusError c msg) := by
  intro h
  rcases hp : parseAddr m.address with _ | a <;>
    simp [protoPrefixToPrefixEntry, hp] at h

theorem protoInterfaceToInterface_no_statusError (m : ProtoInterface)
    (c : Nat) (msg : String) :
    protoInterfaceToInterface m ≠ .error (.statusError c msg) := by
  intro h
  rcases hp1 : parseAddr m.primaryIPv4 with _ | a <;>
    rcases hp2 : parseAddr m.primaryIPv6 with _ | b <;>
      rcases hp3 : parseAddr m.underlayRoute with _ | u <;>
        simp [protoInterfaceToInterface, hp1, hp2, hp3] at h

theorem protoVirtualIPToVirtualIP_no_statusError (i : String)
    (res : GetVirtualIPResponse) (c : Nat) (msg : String) :
    protoVirtualIPToVirtualIP i res ≠ .error (.statusError c msg) := by
  intro h
  rcases hp : parseAddr res.ip.address with _ | a <;>
    simp [protoVirtualIPToVirtualIP, hp] at h

theorem protoNatToNat_no_statusError (res : GetNatResponse) (i : String)
    (c : Nat) (msg : String) :
    protoNatToNat res i ≠ .error (.statusError c msg) := by
  intro h
  rcases hp1 : parseAddr res.natVIPIP.address with _ | a <;>
    rcases hp2 : parseAddr res.underlayRoute with _ | u <;>
      simp [protoNatToNat, hp1, hp2] at h

theorem protoLoadBalancerToLoadBalancer_no_statusError (res : GetLoadBalancerResponse)
    (id : String) (c : Nat) (msg : String) :
    protoLoadBalancerToLoadBalancer res id ≠ .error (.statusError c msg) := by
  intro h
  rcases hp1 : parseAddr res.lbVipIP.address with _ | a <;>
    rcases hp2 : parseAddr res.underlayRoute with _ | u <;>
      simp [protoLoadBalancerToLoadBalancer, hp1, hp2] at h

theorem protoRouteToRoute_no_statusError (vni : Nat) (m : ProtoRouteMsg)
    (c : Nat) (msg : String) :
    protoRouteToRoute vni m ≠ .error (.statusError c msg) := by
  intro h
  rcases hp1 : parseAddr m.pfx.address with _ | a <;>
    rcases hp2 : parseAddr m.nexthopAddress with _ | u <;>
      simp [protoRouteToRoute, hp1, hp2] at h

theorem listPrefixesCall_no_statusError (i : String) (res : ListPrefixesResponse)
    (c : Nat) (msg : String) :
    listPrefixesCall i res ≠ .error (.statusError c msg) := by
  intro h
  rcases ht : translateAll (protoPrefixToPrefixEntry i) res.prefixes with e | items
  · simp only [listPrefixesCall, ht, Except.error.injEq] at h
    subst h
    obtain ⟨x, _, htr⟩ := translateAll_error_mem _ _ _ ht
    exact protoPrefixToPrefixEntry_no_statusError i x c msg htr
  · simp [listPrefixesCall, ht] at h

theorem listLoadBalancerPrefixesCall_no_statusError (i : String)
    (res : ListLBPrefixesResponse) (c : Nat) (msg : String) :
    listLoadBalancerPrefixesCall i res ≠ .error (.statusError c msg) := by
  intro h
  rcases ht : translateAll
      (fun p => protoPrefixToPrefixEntry i (protoLBPrefixToProtoPrefixMsg p))
      res.prefixes with e | items
  · simp only [listLoadBalancerPrefixesCall, ht, Except.error.injEq] at h
    subst h
    obtain ⟨x, _, htr⟩ := translateAll_error_mem _ _ _ ht
    exact protoPrefixToPrefixEntry_no_statusError i (protoLBPrefixToProtoPrefixMsg x)
      c msg htr
  · simp [listLoadBalancerPrefixesCall, ht] at h

theorem listInterfacesCall_no_statusError (res : ListInterfacesResponse)
    (c : Nat) (msg : String) :
    listInterfacesCall res ≠ .error (.statusError c msg) := by
  intro h
  rcases ht : translateAll protoInterfaceToInterface res.interfaces with e | items
  · simp only [listInterfacesCall, ht, Except.error.injEq] at h
    subst h
    obtain ⟨x, _, htr⟩ := translateAll_error_mem _ _ _ ht
    exact protoInterfaceToInterface_no_statusError x c msg htr
  · simp [listInterfacesCall, ht] at h

theorem listRoutesCall_no_statusError (vni : Nat) (res : ListRoutesResponse)
    (c : Nat) (msg : String) :
    listRoutesCall vni res ≠ .error (.statusError c msg) := by
  intro h
  rcases ht : translateAll (protoRouteToRoute vni) res.routes with e | items
  · simp only [listRoutesCall, ht, Except.error.injEq] at h
    subst h
    obtain ⟨x, _, htr⟩ := translateAll_error_mem _ _ _ ht
    exact protoRouteToRoute_no_statusError vni x c msg htr
  · simp [listRoutesCall, ht] at h

/-- C1 (as stated, counterexample): `ListPrefixes` does not inspect the status
sub-structure — on a response whose status carries the non-zero error code 7 it
still returns a translated result list rather than a `StatusError`. -/
theorem c1_counterexample :
    (({ status := { error := 7, message := "vni not found" },
        prefixes := [{ ipVersion := IPVersion.IPv4, address := "10.0.0.0",
                       prefixLength := 24 }] } :
        ListPrefixesResponse).status.error ≠ 0) ∧
    listPrefixesCall "iface-1"
      { status := { error := 7, message := "vni not found" },
        prefixes := [{ ipVersion := IPVersion.IPv4, address := "10.0.0.0",
                       prefixLength := 24 }] } =
      .ok { typeMeta := ⟨PrefixListKind⟩,
            items := [{ typeMeta := ⟨PrefixKind⟩,
                        meta := { interfaceID := "iface-1",
                                  pfx := ⟨.v4 10 0 0 0, 24⟩ },
                        spec := { underlayRoute := none } }] } := by
  exact ⟨by decide, rfl⟩

/-- C1 (amended): every Get, Create and Delete operation (including
GetLoadBalancerTargets) uniformly turns a non-zero status error code of its
response into a typed StatusError and returns no result; the four List
operations (ListLoadBalancerPrefixes, ListInterfaces, ListPrefixes,
ListRoutes) never inspect the response status — their result depends only on
the response payload. -/
theorem c1_theorem :
    (∀ id res, res.status.error ≠ 0 →
      getLoadBalancerCall id res =
        .error (.statusError res.status.error res.status.message)) ∧
    (∀ lb res, res.status.error ≠ 0 →
      (createLoadBalancerCall lb res).2 =
        .error (.statusError res.status.error res.status.message)) ∧
    (∀ id res, res.error ≠ 0 →
      deleteLoadBalancerCall id res = .error (.statusError res.error res.message)) ∧
    (∀ p res, res.status.error ≠ 0 →
      createLoadBalancerPrefixCall p res =
        .error (.statusError res.status.error res.status.message)) ∧
    (∀ i pfx res, res.error ≠ 0 →
      deleteLoadBalancerPrefixCall i pfx res =
        .error (.statusError res.error res.message)) ∧
    (∀ id res, res.status.error ≠ 0 →
      getLoadBalancerTargetsCall id res =
        .error (.statusError res.status.error res.status.message)) ∧
    (∀ t res, res.error ≠ 0 →
      createLoadBalancerTargetCall t res =
        .error (.statusError res.error res.message)) ∧
    (∀ id ip res, res.error ≠ 0 →
      deleteLoadBalancerTargetCall id ip res =
        .error (.statusError res.error res.message)) ∧
    (∀ res, res.status.error ≠ 0 →
      getInterfaceCall res =
        .error (.statusError res.status.error res.status.message)) ∧
    (∀ iface res, res.response.status.error ≠ 0 →
      createInterfaceCall iface res =
        .error (.statusError res.response.status.error
          res.response.status.message)) ∧
    (∀ n res, res.error ≠ 0 →
      deleteInterfaceCall n res = .error (.statusError res.error res.message)) ∧
    (∀ n res, res.status.error ≠ 0 →
      getVirtualIPCall n res =
        .error (.statusError res.status.error res.status.message)) ∧
    (∀ v res, res.status.error ≠ 0 →
      createVirtualIPCall v res =
        .error (.statusError res.status.error res.status.message)) ∧
    (∀ i res, res.error ≠ 0 →
      deleteVirtualIPCall i res = .error (.statusError res.error res.message)) ∧
    (∀ p res, res.status.error ≠ 0 →
      createPrefixCall p res =
        .error (.statusError res.status.error res.status.message)) ∧
    (∀ i pfx res, res.error ≠ 0 →
      deletePrefixCall i pfx res = .error (.statusError res.error res.message)) ∧
    (∀ r res, res.error ≠ 0 →
      createRouteCall r res = .error (.statusError res.error res.message)) ∧
    (∀ v pfx nv nip res, res.error ≠ 0 →
      deleteRouteCall v pfx nv nip res =
        .error (.statusError res.error res.message)) ∧
    (∀ i res, res.status.error ≠ 0 →
      getNatCall i res =
        .error (.statusError res.status.error res.status.message)) ∧
    (∀ nat res, res.status.error ≠ 0 →
      (createNatCall nat res).2 =
        .error (.statusError res.status.error res.status.message)) ∧
    (∀ i s s' ps,
      listLoadBalancerPrefixesCall i { status := s, prefixes := ps } =
        listLoadBalancerPrefixesCall i { status := s', prefixes := ps }) ∧
    (∀ s s' ms,
      listInterfacesCall { status := s, interfaces := ms } =
        listInterfacesCall { status := s', interfaces := ms }) ∧
    (∀ i s s' ps,
      listPrefixesCall i { status := s, prefixes := ps } =
        listPrefixesCall i { status := s', prefixes := ps }) ∧
    (∀ v s s' rs,
      listRoutesCall v { status := s, routes := rs } =
        listRoutesCall v { status := s', routes := rs }) := by
  refine ⟨?_, ?_, ?_, ?_, ?_, ?_, ?_, ?_, ?_, ?_, ?_, ?_, ?_, ?_, ?_, ?_, ?_, ?_,
    ?_, ?_, ?_, ?_, ?_, ?_⟩
  · intro id res h; simp [getLoadBalancerCall, newStatusError, h]
  · intro lb res h; simp [createLoadBalancerCall, newStatusError, h]
  · intro id res h; simp [deleteLoadBalancerCall, newStatusError, h]
  · intro p res h; simp [createLoadBalancerPrefixCall, newStatusError, h]
  · intro i pfx res h; simp [deleteLoadBalancerPrefixCall, newStatusError, h]
  · intro id res h; simp [getLoadBalancerTargetsCall, newStatusError, h]
  · intro t res h; simp [createLoadBalancerTargetCall, newStatusError, h]
  · intro id ip res h; simp [deleteLoadBalancerTargetCall, newStatusError, h]
  · intro res h; simp [getInterfaceCall, newStatusError, h]
  · intro iface res h; simp [createInterfaceCall, newStatusError, h]
  · intro n res h; simp [deleteInterfaceCall, newStatusError, h]
  · intro n res h; simp [getVirtualIPCall, newStatusError, h]
  · intro v res h; simp [createVirtualIPCall, newStatusError, h]
  · intro i res h; simp [deleteVirtualIPCall, newStatusError, h]
  · intro p res h; simp [createPrefixCall, newStatusError, h]
  · intro i pfx res h; simp [deletePrefixCall, newStatusError, h]
  · intro r res h; simp [createRouteCall, newStatusError, h]
  · intro v pfx nv nip res h; simp [deleteRouteCall, newStatusError, h]
  · intro i res h; simp [getNatCall, newStatusError, h]
  · intro nat res h; simp [createNatCall, newStatusError, h]
  · intro i s s' ps; rfl
  · intro s s' ms; rfl
  · intro i s s' ps; rfl
  · intro v s s' rs; rfl

/-- C1 witness: the status check of GetLoadBalancer at a concrete response
carrying error code 3. -/
theorem c1_witness :
    getLoadBalancerCall "lb1"
      { status := { error := 3, message := "not found" }, vni := 0,
        lbVipIP := ⟨IPVersion.IPv4, ""⟩, lbports := [], underlayRoute := "" } =
      .error (.statusError 3 "not found") :=
  c1_theorem.1 "lb1"
    { status := { error := 3, message := "not found" }, vni := 0,
      lbVipIP := ⟨IPVersion.IPv4, ""⟩, lbports := [], underlayRoute := "" }
    (by decide)

/-- C2 (confirmed): whenever an operation returns a StatusError, its code and
message are exactly the error code and message of the response's status
sub-structure, unmodified; the four status-ignoring List operations never
return a StatusError at all. -/
theorem c2_theorem :
    (∀ id res c m, getLoadBalancerCall id res = .error (.statusError c m) →
      c = res.status.error ∧ m = res.status.message) ∧
    (∀ lb res c m, (createLoadBalancerCall lb res).2 = .error (.statusError c m) →
      c = res.status.error ∧ m = res.status.message) ∧
    (∀ id res c m, deleteLoadBalancerCall id res = .error (.statusError c m) →
      c = res.error ∧ m = res.message) ∧
    (∀ p res c m, createLoadBalancerPrefixCall p res = .error (.statusError c m) →
      c = res.status.error ∧ m = res.status.message) ∧
    (∀ i pfx res c m,
      deleteLoadBalancerPrefixCall i pfx res = .error (.statusError c m) →
      c = res.error ∧ m = res.message) ∧
    (∀ id res c m, getLoadBalancerTargetsCall id res = .error (.statusError c m) →
      c = res.status.error ∧ m = res.status.message) ∧
    (∀ t res c m, createLoadBalancerTargetCall t res = .error (.statusError c m) →
      c = res.error ∧ m = res.message) ∧
    (∀ id ip res c m,
      deleteLoadBalancerTargetCall id ip res = .error (.statusError c m) →
      c = res.error ∧ m = res.message) ∧
    (∀ res c m, getInterfaceCall res = .error (.statusError c m) →
      c = res.status.error ∧ m = res.status.message) ∧
    (∀ iface res c m, createInterfaceCall iface res = .error (.statusError c m) →
      c = res.response.status.error ∧ m = res.response.status.message) ∧
    (∀ n res c m, deleteInterfaceCall n res = .error (.statusError c m) →
      c = res.error ∧ m = res.message) ∧
    (∀ n res c m, getVirtualIPCall n res = .error (.statusError c m) →
      c = res.status.error ∧ m = res.status.message) ∧
    (∀ v res c m, createVirtualIPCall v res = .error (.statusError c m) →
      c = res.status.error ∧ m = res.status.message) ∧
    (∀ i res c m, deleteVirtualIPCall i res = .error (.statusError c m) →
      c = res.error ∧ m = res.message) ∧
    (∀ p res c m, createPrefixCall p res = .error (.statusError c m) →
      c = res.status.error ∧ m = res.status.message) ∧
    (∀ i pfx res c m, deletePrefixCall i pfx res = .error (.statusError c m) →
      c = res.error ∧ m = res.message) ∧
    (∀ r res c m, createRouteCall r res = .error (.statusError c m) →
      c = res.error ∧ m = res.message) ∧
    (∀ v pfx nv nip res c m,
      deleteRouteCall v pfx nv nip res = .error (.statusError c m) →
      c = res.error ∧ m = res.message) ∧
    (∀ i res c m, getNatCall i res = .error (.statusError c m) →
      c = res.status.error ∧ m = res.status.message) ∧
    (∀ nat res c m, (createNatCall nat res).2 = .error (.statusError c m) →
      c = res.status.error ∧ m = res.status.message) ∧
    (∀ i res c m, listLoadBalancerPrefixesCall i res ≠ .error (.statusError c m)) ∧
    (∀ res c m, listInterfacesCall res ≠ .error (.statusError c m)) ∧
    (∀ i res c m, listPrefixesCall i res ≠ .error (.statusError c m)) ∧
    (∀ v res c m, listRoutesCall v res ≠ .error (.statusError c m)) := by
  refine ⟨?_, ?_, ?_, ?_, ?_, ?_, ?_, ?_, ?_, ?_, ?_, ?_, ?_, ?_, ?_, ?_, ?_, ?_,
    ?_, ?_, ?_, ?_, ?_, ?_⟩
  · intro id res c m hres
    by_cases h : res.status.error = 0
    · simp [getLoadBalancerCall, h] at hres
      exact absurd hres (protoLoadBalancerToLoadBalancer_no_statusError res id c m)
    · simp [getLoadBalancerCall, newStatusError, h] at hres
      exact ⟨hres.1.symm, hres.2.symm⟩
  · intro lb res c m hres
    by_cases h : res.status.error = 0
    · rcases hp : parseAddr res.underlayRoute with _ | u <;>
        simp [createLoadBalancerCall, h, hp] at hres
    · simp [createLoadBalancerCall, newStatusError, h] at hres
      exact ⟨hres.1.symm, hres.2.symm⟩
  · intro id res c m hres
    by_cases h : res.error = 0
    · simp [deleteLoadBalancerCall, h] at hres
    · simp [deleteLoadBalancerCall, newStatusError, h] at hres
      exact ⟨hres.1.symm, hres.2.symm⟩
  · intro p res c m hres
    by_cases h : res.status.error = 0
    · simp [createLoadBalancerPrefixCall, h] at hres
    · simp [createLoadBalancerPrefixCall, newStatusError, h] at hres
      exact ⟨hres.1.symm, hres.2.symm⟩
  · intro i pfx res c m hres
    by_cases h : res.error = 0
    · simp [deleteLoadBalancerPrefixCall, h] at hres
    · simp [deleteLoadBalancerPrefixCall, newStatusError, h] at hres
      exact ⟨hres.1.symm, hres.2.symm⟩
  · intro id res c m hres
    by_cases h : res.status.error = 0
    · simp [getLoadBalancerTargetsCall, h] at hres
    · simp [getLoadBalancerTargetsCall, newStatusError, h] at hres
      exact ⟨hres.1.symm, hres.2.symm⟩
  · intro t res c m hres
    by_cases h : res.error = 0
    · simp [createLoadBalancerTargetCall, h] at hres
    · simp [createLoadBalancerTargetCall, newStatusError, h] at hres
      exact ⟨hres.1.symm, hres.2.symm⟩
  · intro id ip res c m hres
    by_cases h : res.error = 0
    · simp [deleteLoadBalancerTargetCall, h] at hres
    · simp [deleteLoadBalancerTargetCall, newStatusError, h] at hres
      exact ⟨hres.1.symm, hres.2.symm⟩
  · intro res c m hres
    by_cases h : res.status.error = 0
    · simp [getInterfaceCall, h] at hres
      exact absurd hres (protoInterfaceToInterface_no_statusError res.iface c m)
    · simp [getInterfaceCall, newStatusError, h] at hres
      exact ⟨hres.1.symm, hres.2.symm⟩
  · intro iface res c m hres
    by_cases h : res.response.status.error = 0
    · rcases hp : parseAddr res.response.underlayRoute with _ | u <;>
        simp [createInterfaceCall, h, hp] at hres
    · simp [createInterfaceCall, newStatusError, h] at hres
      exact ⟨hres.1.symm, hres.2.symm⟩
  · intro n res c m hres
    by_cases h : res.error = 0
    · simp [deleteInterfaceCall, h] at hres
    · simp [deleteInterfaceCall, newStatusError, h] at hres
      exact ⟨hres.1.symm, hres.2.symm⟩
  · intro n res c m hres
    by_cases h : res.status.error = 0
    · simp [getVirtualIPCall, h] at hres
      exact absurd hres (protoVirtualIPToVirtualIP_no_statusError n res c m)
    · simp [getVirtualIPCall, newStatusError, h] at hres
      exact ⟨hres.1.symm, hres.2.symm⟩
  · intro v res c m hres
    by_cases h : res.status.error = 0
    · simp [createVirtualIPCall, h] at hres
    · simp [createVirtualIPCall, newStatusError, h] at hres
      exact ⟨hres.1.symm, hres.2.symm⟩
  · intro i res c m hres
    by_cases h : res.error = 0
    · simp [deleteVirtualIPCall, h] at hres
    · simp [deleteVirtualIPCall, newStatusError, h] at hres
      exact ⟨hres.1.symm, hres.2.symm⟩
  · intro p res c m hres
    by_cases h : res.status.error = 0
    · simp [createPrefixCall, h] at hres
    · simp [createPrefixCall, newStatusError, h] at hres
      exact ⟨hres.1.symm, hres.2.symm⟩
  · intro i pfx res c m hres
    by_cases h : res.error = 0
    · simp [deletePrefixCall, h] at hres
    · simp [deletePrefixCall, newStatusError, h] at hres
      exact ⟨hres.1.symm, hres.2.symm⟩
  · intro r res c m hres
    by_cases h : res.error = 0
    · simp [createRouteCall, h] at hres
    · simp [createRouteCall, newStatusError, h] at hres
      exact ⟨hres.1.symm, hres.2.symm⟩
  · intro v pfx nv nip res c m hres
    by_cases h : res.error = 0
    · simp [deleteRouteCall, h] at hres
    · simp [deleteRouteCall, newStatusError, h] at hres
      exact ⟨hres.1.symm, hres.2.symm⟩
  · intro i res c m hres
    by_cases h : res.status.error = 0
    · simp [getNatCall, h] at hres
      exact absurd hres (protoNatToNat_no_statusError res i c m)
    · simp [getNatCall, newStatusError, h] at hres
      exact ⟨hres.1.symm, hres.2.symm⟩
  · intro nat res c m hres
    by_cases h : res.status.error = 0
    · rcases hp : parseAddr res.underlayRoute with _ | u <;>
        simp [createNatCall, h, hp] at hres
    · simp [createNatCall, newStatusError, h] at hres
      exact ⟨hres.1.symm, hres.2.symm⟩
  · exact fun i res c m => listLoadBalancerPrefixesCall_no_statusError i res c m
  · exact fun res c m => listInterfacesCall_no_statusError res c m
  · exact fun i res c m => listPrefixesCall_no_statusError i res c m
  · exact fun v res c m => listRoutesCall_no_statusError v res c m

/-- C2 witness: DeleteRoute at a concrete response with error code 9 yields a
StatusError carrying exactly that code and message. -/
theorem c2_witness :
    (9 : Nat) = ({ error := 9, message := "no route" } : Status).error ∧
    "no route" = ({ error := 9, message := "no route" } : Status).message :=
  c2_theorem.2.2.2.2.2.2.2.2.2.2.2.2.2.2.2.2.2.1 100 ⟨.v4 10 0 0 0, 24⟩ 200
    (.v6 65408 0 0 0 0 0 0 1) { error := 9, message := "no route" } 9 "no route" rfl

/-- C3 (confirmed): on a response with a zero status error code whose
underlay-route text does not parse, CreateLoadBalancer, CreateInterface and
CreateNat return a decode error — an `Err` distinct from every StatusError —
and no result. -/
theorem c3_theorem :
    (∀ lb res, res.status.error = 0 → parseAddr res.underlayRoute = none →
      (createLoadBalancerCall lb res).2 =
        .error (.decodeError "error parsing underlay route")) ∧
    (∀ iface res, res.response.status.error = 0 →
      parseAddr res.response.underlayRoute = none →
      createInterfaceCall iface res =
        .error (.decodeError "error parsing underlay route")) ∧
    (∀ nat res, res.status.error = 0 → parseAddr res.underlayRoute = none →
      (createNatCall nat res).2 =
        .error (.decodeError "error parsing underlay route")) ∧
    (∀ c m msg, (Err.decodeError msg) ≠ .statusError c m) := by
  refine ⟨?_, ?_, ?_, ?_⟩
  · intro lb res h hp; simp [createLoadBalancerCall, h, hp]
  · intro iface res h hp; simp [createInterfaceCall, h, hp]
  · intro nat res h hp; simp [createNatCall, h, hp]
  · intro c m msg h; exact absurd h (by simp)

/-- C3 witness: CreateNat on a concrete success-status response whose
underlay-route text is empty (unparsable). -/
theorem c3_witness :
    (createNatCall
      { typeMeta := ⟨NatKind⟩, meta := { interfaceID := "iface-1" },
        spec := { natVIPIP := .v4 10 20 30 40, minPort := 100, maxPort := 200,
                  underlayRoute := none },
        status := { error := 0, message := "" } }
      { status := { error := 0, message := "" }, underlayRoute := "" }).2 =
      .error (.decodeError "error parsing underlay route") :=
  c3_theorem.2.2.1
    { typeMeta := ⟨NatKind⟩, meta := { interfaceID := "iface-1" },
      spec := { natVIPIP := .v4 10 20 30 40, minPort := 100, maxPort := 200,
                underlayRoute := none },
      status := { error := 0, message := "" } }
    { status := { error := 0, message := "" }, underlayRoute := "" } rfl rfl

/-- C4 (confirmed): the wire requests of CreateRoute and DeleteRoute carry the
constant weight 100 regardless of input, and DeleteRoute's request carries
exactly the caller-supplied 4-tuple {VNI, prefix, next-hop VNI, next-hop
address}. -/
theorem c4_theorem :
    (∀ route : Route, (createRouteRequest route).route.weight = 100) ∧
    (∀ vni pfx nextHopVNI nextHopIP,
      (deleteRouteRequest vni pfx nextHopVNI nextHopIP).route.weight = 100 ∧
      (deleteRouteRequest vni pfx nextHopVNI nextHopIP).vni = vni ∧
      (deleteRouteRequest vni pfx nextHopVNI nextHopIP).route.pfx.address =
        ipNetToString pfx ∧
      (deleteRouteRequest vni pfx nextHopVNI nextHopIP).route.pfx.prefixLength =
        pfx.bits ∧
      (deleteRouteRequest vni pfx nextHopVNI nextHopIP).route.nexthopVNI =
        nextHopVNI ∧
      (deleteRouteRequest vni pfx nextHopVNI nextHopIP).route.nexthopAddress =
        addrToString nextHopIP) :=
  ⟨fun _ => rfl, fun _ _ _ _ => ⟨rfl, rfl, rfl, rfl, rfl, rfl⟩⟩

/-- C5 (confirmed): for every List operation, a failing element translation
fails the entire call with that element's error (no partial results), and when
every element translates the result has exactly one translated element per
response element. -/
theorem c5_theorem :
    (∀ i res e k (hk : k < res.prefixes.length),
      protoPrefixToPrefixEntry i (res.prefixes.get ⟨k, hk⟩) = .error e →
      (∀ j (hj : j < res.prefixes.length), j < k →
        ∃ y, protoPrefixToPrefixEntry i (res.prefixes.get ⟨j, hj⟩) = .ok y) →
      listPrefixesCall i res = .error e) ∧
    (∀ i res, (∀ x ∈ res.prefixes, ∃ y, protoPrefixToPrefixEntry i x = .ok y) →
      ∃ pl, listPrefixesCall i res = .ok pl ∧
        pl.items.length = res.prefixes.length) ∧
    (∀ res e k (hk : k < res.interfaces.length),
      protoInterfaceToInterface (res.interfaces.get ⟨k, hk⟩) = .error e →
      (∀ j (hj : j < res.interfaces.length), j < k →
        ∃ y, protoInterfaceToInterface (res.interfaces.get ⟨j, hj⟩) = .ok y) →
      listInterfacesCall res = .error e) ∧
    (∀ res, (∀ x ∈ res.interfaces, ∃ y, protoInterfaceToInterface x = .ok y) →
      ∃ il, listInterfacesCall res = .ok il ∧
        il.items.length = res.interfaces.length) ∧
    (∀ vni res e k (hk : k < res.routes.length),
      protoRouteToRoute vni (res.routes.get ⟨k, hk⟩) = .error e →
      (∀ j (hj : j < res.routes.length), j < k →
        ∃ y, protoRouteToRoute vni (res.routes.get ⟨j, hj⟩) = .ok y) →
      listRoutesCall vni res = .error e) ∧
    (∀ vni res, (∀ x ∈ res.routes, ∃ y, protoRouteToRoute vni x = .ok y) →
      ∃ rl, listRoutesCall vni res = .ok rl ∧
        rl.items.length = res.routes.length) ∧
    (∀ i res e k (hk : k < res.prefixes.length),
      protoPrefixToPrefixEntry i
        (protoLBPrefixToProtoPrefixMsg (res.prefixes.get ⟨k, hk⟩)) = .error e →
      (∀ j (hj : j < res.prefixes.length), j < k →
        ∃ y, protoPrefixToPrefixEntry i
          (protoLBPrefixToProtoPrefixMsg (res.prefixes.get ⟨j, hj⟩)) = .ok y) →
      listLoadBalancerPrefixesCall i res = .error e) ∧
    (∀ i res, (∀ x ∈ res.prefixes,
        ∃ y, protoPrefixToPrefixEntry i (protoLBPrefixToProtoPrefixMsg x) = .ok y) →
      ∃ pl, listLoadBalancerPrefixesCall i res = .ok pl ∧
        pl.items.length = res.prefixes.length) := by
  refine ⟨?_, ?_, ?_, ?_, ?_, ?_, ?_, ?_⟩
  · intro i res e k hk herr hok
    have ht := translateAll_error_first (protoPrefixToPrefixEntry i)
      res.prefixes k hk e herr hok
    simp [listPrefixesCall, ht]
  · intro i res hall
    obtain ⟨ys, hys⟩ := translateAll_ok_exists (protoPrefixToPrefixEntry i)
      res.prefixes hall
    exact ⟨{ typeMeta := ⟨PrefixListKind⟩, items := ys },
      by simp [listPrefixesCall, hys],
      by simpa using translateAll_ok_length _ _ _ hys⟩
  · intro res e k hk herr hok
    have ht := translateAll_error_first protoInterfaceToInterface
      res.interfaces k hk e herr hok
    simp [listInterfacesCall, ht]
  · intro res hall
    obtain ⟨ys, hys⟩ := translateAll_ok_exists protoInterfaceToInterface
      res.interfaces hall
    exact ⟨{ typeMeta := ⟨InterfaceListKind⟩, items := ys },
      by simp [listInterfacesCall, hys],
      by simpa using translateAll_ok_length _ _ _ hys⟩
  · intro vni res e k hk herr hok
    have ht := translateAll_error_first (protoRouteToRoute vni)
      res.routes k hk e herr hok
    simp [listRoutesCall, ht]
  · intro vni res hall
    obtain ⟨ys, hys⟩ := translateAll_ok_exists (protoRouteToRoute vni)
      res.routes hall
    exact ⟨{ typeMeta := ⟨RouteListKind⟩, items := ys },
      by simp [listRoutesCall, hys],
      by simpa using translateAll_ok_length _ _ _ hys⟩
  · intro i res e k hk herr hok
    have ht := translateAll_error_first
      (fun p => protoPrefixToPrefixEntry i (protoLBPrefixToProtoPrefixMsg p))
      res.prefixes k hk e herr hok
    simp [listLoadBalancerPrefixesCall, ht]
  · intro i res hall
    obtain ⟨ys, hys⟩ := translateAll_ok_exists
      (fun p => protoPrefixToPrefixEntry i (protoLBPrefixToProtoPrefixMsg p))
      res.prefixes hall
    exact ⟨{ typeMeta := ⟨PrefixListKind⟩, items := ys },
      by simp [listLoadBalancerPrefixesCall, hys],
      by simpa using translateAll_ok_length _ _ _ hys⟩

/-- C5 witness: listing three prefixes of which the second is malformed fails
the whole call with the decode error and no partial list. -/
theorem c5_witness :
    listPrefixesCall "iface-1"
      { status := { error := 0, message := "" },
        prefixes := [⟨IPVersion.IPv4, "10.0.0.0", 24⟩,
                     ⟨IPVersion.IPv4, "malformed", 24⟩,
                     ⟨IPVersion.IPv4, "10.0.1.0", 24⟩] } =
      .error (.decodeError "error parsing dpdk prefix address") := by
  refine c5_theorem.1 "iface-1"
    { status := { error := 0, message := "" },
      prefixes := [⟨IPVersion.IPv4, "10.0.0.0", 24⟩,
                   ⟨IPVersion.IPv4, "malformed", 24⟩,
                   ⟨IPVersion.IPv4, "10.0.1.0", 24⟩] }
    (.decodeError "error parsing dpdk prefix address") 1 (by norm_num) rfl ?_
  intro j hj hlt
  have hj0 : j = 0 := by omega
  subst hj0
  exact ⟨_, rfl⟩

/-- C6 (as stated, counterexample): the `addPrefixCmd` command derives the
version tag from which flag the user supplied, not from the address itself —
passing an IPv6 prefix text through the `--ipv4` flag produces a request
carrying the IPv4 tag together with an IPv6 address text (a mixed pair). -/
theorem c6_counterexample :
    addPrefixCmdBuild "ff80:0:0:0:0:0:0:1/64" "" =
      some { ipVersion := IPVersion.IPv4, address := "ff80:0:0:0:0:0:0:1",
             prefixLength := 64 } ∧
    parseAddr "ff80:0:0:0:0:0:0:1" = some (Addr.v6 65408 0 0 0 0 0 0 1) ∧
    netIPAddrToProtoIPVersion (Addr.v6 65408 0 0 0 0 0 0 1) = IPVersion.IPv6 := by
  exact ⟨rfl, by decide, rfl⟩

/-- C6 (amended): within the wire-client package every IP-bearing wire field's
version tag is computed from the address's own family (IPv4 addresses yield
the IPv4 tag, IPv6 addresses the IPv6 tag) — for bare IPs, prefixes, virtual
IPs and NAT IPs alike; the `addPrefixCmd` command in the command layer,
however, chooses the tag from which of the `--ipv4`/`--ipv6` flags was
supplied, so a mixed tag/address pair is possible on that path. -/
theorem c6_theorem :
    (∀ a : Addr, a.is4 = true → netIPAddrToProtoIPVersion a = IPVersion.IPv4) ∧
    (∀ a : Addr, a.is6 = true → netIPAddrToProtoIPVersion a = IPVersion.IPv6) ∧
    (∀ p : PrefixEntry, (createPrefixRequest p).pfx.ipVersion =
      netIPAddrToProtoIPVersion p.meta.pfx.addr) ∧
    (∀ p : PrefixEntry, (createLoadBalancerPrefixRequest p).pfx.ipVersion =
      netIPAddrToProtoIPVersion p.meta.pfx.addr) ∧
    (∀ i pfx, (deletePrefixRequest i pfx).pfx.ipVersion =
      netIPAddrToProtoIPVersion pfx.addr) ∧
    (∀ i pfx, (deleteLoadBalancerPrefixRequest i pfx).pfx.ipVersion =
      netIPAddrToProtoIPVersion pfx.addr) ∧
    (∀ v : VirtualIP, (createVirtualIPRequest v).vipIP.ipVersion =
      netIPAddrToProtoIPVersion v.meta.ip) ∧
    (∀ nat : ApiNat, (createNatRequest nat).natVIPIP.ipVersion =
      netIPAddrToProtoIPVersion nat.spec.natVIPIP) ∧
    (∀ lb : LoadBalancer, (createLoadBalancerRequest lb).lbVipIP.ipVersion =
      netIPAddrToProtoIPVersion lb.spec.lbVipIP) ∧
    (∀ t : LoadBalancerTarget, (createLoadBalancerTargetRequest t).targetIP.ipVersion =
      netIPAddrToProtoIPVersion t.spec.targetIP) ∧
    (∀ r : Route, (createRouteRequest r).route.ipVersion =
        netIPAddrToProtoIPVersion r.meta.nextHop.ip ∧
      (createRouteRequest r).route.pfx.ipVersion =
        netIPAddrToProtoIPVersion r.meta.pfx.addr) ∧
    (∀ vni pfx nv nip, (deleteRouteRequest vni pfx nv nip).route.ipVersion =
        netIPAddrToProtoIPVersion nip ∧
      (deleteRouteRequest vni pfx nv nip).route.pfx.ipVersion =
        netIPAddrToProtoIPVersion pfx.addr) := by
  refine ⟨?_, ?_, fun _ => rfl, fun _ => rfl, fun _ _ => rfl, fun _ _ => rfl,
    fun _ => rfl, fun _ => rfl, fun _ => rfl, fun _ => rfl,
    fun _ => ⟨rfl, rfl⟩, fun _ _ _ _ => ⟨rfl, rfl⟩⟩
  · intro a h
    simp [netIPAddrToProtoIPVersion, h]
  · intro a h
    cases a with
    | v4 o0 o1 o2 o3 => simp [Addr.is6] at h
    | v6 g0 g1 g2 g3 g4 g5 g6 g7 => simp [netIPAddrToProtoIPVersion, Addr.is4]
    | invalid => simp [Addr.is6] at h

/-- C6 witness: the family-derived tag at a concrete IPv4 address. -/
theorem c6_witness :
    netIPAddrToProtoIPVersion (Addr.v4 10 20 30 40) = IPVersion.IPv4 :=
  c6_theorem.1 (Addr.v4 10 20 30 40) rfl

/-- C7 (confirmed): encoding a semantic Prefix into the wire prefix exactly as
CreatePrefix does, then decoding it back, returns the original value — owning
interface, address, bit length and family all preserved. -/
theorem c7_theorem (p : PrefixEntry) (hv : p.meta.pfx.addr.valid) :
    protoPrefixToPrefixEntry p.meta.interfaceID ((createPrefixRequest p).pfx) =
      .ok { typeMeta := ⟨PrefixKind⟩
            meta := { interfaceID := p.meta.interfaceID, pfx := p.meta.pfx }
            spec := { underlayRoute := none } } := by
  have h := parseAddr_addrToString p.meta.pfx.addr hv
  simp [protoPrefixToPrefixEntry, createPrefixRequest, h]

/-- C7 witness: the round-trip at a concrete prefix 10.0.0.0/24. -/
theorem c7_witness :
    protoPrefixToPrefixEntry "iface-1"
      ((createPrefixRequest
        { typeMeta := ⟨PrefixKind⟩
          meta := { interfaceID := "iface-1", pfx := ⟨.v4 10 0 0 0, 24⟩ }
          spec := { underlayRoute := none } }).pfx) =
      .ok { typeMeta := ⟨PrefixKind⟩
            meta := { interfaceID := "iface-1", pfx := ⟨.v4 10 0 0 0, 24⟩ }
            spec := { underlayRoute := none } } :=
  c7_theorem
    { typeMeta := ⟨PrefixKind⟩
      meta := { interfaceID := "iface-1", pfx := ⟨.v4 10 0 0 0, 24⟩ }
      spec := { underlayRoute := none } }
    (by decide)

/-- C8 (as stated, counterexample): CreateVirtualIP does not echo the input's
identity metadata — with input interface "iface-1" the returned struct carries
the zero-valued metadata, not the input's. -/
theorem c8_counterexample :
    createVirtualIPCall
      { typeMeta := ⟨VirtualIPKind⟩
        meta := { interfaceID := "iface-1", ip := .v4 10 20 30 40 }
        spec := { underlayRoute := none } }
      { status := { error := 0, message := "" } } =
      .ok { typeMeta := ⟨VirtualIPKind⟩
            meta := { interfaceID := "", ip := .invalid }
            spec := { underlayRoute := none } } ∧
    ({ interfaceID := "", ip := .invalid } : VirtualIPMeta) ≠
      { interfaceID := "iface-1", ip := .v4 10 20 30 40 } := by
  exact ⟨rfl, by decide⟩

/-- C8 (amended): on success every Create operation echoes the input's spec
fields (with the parsed service-assigned underlay route written into the spec
for LoadBalancer and Nat, and into the status for Interface), and echoes the
input's identity metadata for LoadBalancer, LoadBalancerPrefix,
LoadBalancerTarget, Interface, Prefix and Nat; CreateVirtualIP and
CreateRoute, however, return structs whose identity metadata is left
zero-valued (only type meta and spec are populated). -/
theorem c8_theorem :
    (∀ lb res out, (createLoadBalancerCall lb res).2 = .ok out →
      out.meta = lb.meta ∧ out.spec.vni = lb.spec.vni ∧
      out.spec.lbVipIP = lb.spec.lbVipIP ∧ out.spec.lbports = lb.spec.lbports) ∧
    (∀ p res out, createLoadBalancerPrefixCall p res = .ok out →
      out.meta = p.meta ∧ out.spec = p.spec) ∧
    (∀ t res out, createLoadBalancerTargetCall t res = .ok out →
      out.meta = t.meta ∧ out.spec = t.spec) ∧
    (∀ iface res out, createInterfaceCall iface res = .ok out →
      out.meta = iface.meta ∧ out.spec = iface.spec) ∧
    (∀ p res out, createPrefixCall p res = .ok out →
      out.meta = p.meta ∧ out.spec = p.spec) ∧
    (∀ nat res out, (createNatCall nat res).2 = .ok out →
      out.meta = nat.meta ∧ out.spec.natVIPIP = nat.spec.natVIPIP ∧
      out.spec.minPort = nat.spec.minPort ∧ out.spec.maxPort = nat.spec.maxPort) ∧
    (∀ v res out, createVirtualIPCall v res = .ok out →
      out.spec = v.spec ∧ out.meta = { interfaceID := "", ip := .invalid }) ∧
    (∀ r res out, createRouteCall r res = .ok out →
      out.spec = r.spec ∧
      out.meta = { vni := 0, pfx := ⟨.invalid, 0⟩,
                   nextHop := { vni := 0, ip := .invalid } }) := by
  refine ⟨?_, ?_, ?_, ?_, ?_, ?_, ?_, ?_⟩
  · intro lb res out h
    by_cases hs : res.status.error = 0
    · rcases hp : parseAddr res.underlayRoute with _ | u
      · simp [createLoadBalancerCall, hs, hp] at h
      · simp [createLoadBalancerCall, hs, hp] at h
        subst h
        exact ⟨rfl, rfl, rfl, rfl⟩
    · simp [createLoadBalancerCall, hs] at h
  · intro p res out h
    by_cases hs : res.status.error = 0
    · simp [createLoadBalancerPrefixCall, hs] at h
      subst h
      exact ⟨rfl, rfl⟩
    · simp [createLoadBalancerPrefixCall, hs] at h
  · intro t res out h
    by_cases hs : res.error = 0
    · simp [createLoadBalancerTargetCall, hs] at h
      subst h
      exact ⟨rfl, rfl⟩
    · simp [createLoadBalancerTargetCall, hs] at h
  · intro iface res out h
    by_cases hs : res.response.status.error = 0
    · rcases hp : parseAddr res.response.underlayRoute with _ | u
      · simp [createInterfaceCall, hs, hp] at h
      · simp [createInterfaceCall, hs, hp] at h
        subst h
        exact ⟨rfl, rfl⟩
    · simp [createInterfaceCall, hs] at h
  · intro p res out h
    by_cases hs : res.status.error = 0
    · simp [createPrefixCall, hs] at h
      subst h
      exact ⟨rfl, rfl⟩
    · simp [createPrefixCall, hs] at h
  · intro nat res out h
    by_cases hs : res.status.error = 0
    · rcases hp : parseAddr res.underlayRoute with _ | u
      · simp [createNatCall, hs, hp] at h
      · simp [createNatCall, hs, hp] at h
        subst h
        exact ⟨rfl, rfl, rfl, rfl⟩
    · simp [createNatCall, hs] at h
  · intro v res out h
    by_cases hs : res.status.error = 0
    · simp [createVirtualIPCall, hs] at h
      subst h
      exact ⟨rfl, rfl⟩
    · simp [createVirtualIPCall, hs] at h
  · intro r res out h
    by_cases hs : res.error = 0
    · simp [createRouteCall, hs] at h
      subst h
      exact ⟨rfl, rfl⟩
    · simp [createRouteCall, hs] at h

/-- C8 witness: CreatePrefix at a concrete input and success response echoes
identity and spec. -/
theorem c8_witness :
    ({ typeMeta := ⟨PrefixKind⟩
       meta := { interfaceID := "iface-1", pfx := ⟨.v4 10 0 0 0, 24⟩ }
       spec := { underlayRoute := none } } : PrefixEntry).meta =
      ({ typeMeta := ⟨PrefixKind⟩
         meta := { interfaceID := "iface-1", pfx := ⟨.v4 10 0 0 0, 24⟩ }
         spec := { underlayRoute := none } } : PrefixEntry).meta ∧
    ({ typeMeta := ⟨PrefixKind⟩
       meta := { interfaceID := "iface-1", pfx := ⟨.v4 10 0 0 0, 24⟩ }
       spec := { underlayRoute := none } } : PrefixEntry).spec =
      ({ typeMeta := ⟨PrefixKind⟩
         meta := { interfaceID := "iface-1", pfx := ⟨.v4 10 0 0 0, 24⟩ }
         spec := { underlayRoute := none } } : PrefixEntry).spec :=
  c8_theorem.2.2.2.2.1
    { typeMeta := ⟨PrefixKind⟩
      meta := { interfaceID := "iface-1", pfx := ⟨.v4 10 0 0 0, 24⟩ }
      spec := { underlayRoute := none } }
    { status := { error := 0, message := "" } }
    { typeMeta := ⟨PrefixKind⟩
      meta := { interfaceID := "iface-1", pfx := ⟨.v4 10 0 0 0, 24⟩ }
      spec := { underlayRoute := none } }
    rfl

/-- C9 (confirmed): for every List operation, on success the i-th element of
the returned semantic list is the translation of the i-th element of the wire
response — ListPrefixes, ListLoadBalancerPrefixes, ListInterfaces, ListRoutes
and GetLoadBalancerTargets all preserve the service's order and never
re-order. -/
theorem c9_theorem :
    (∀ i res pl, listPrefixesCall i res = .ok pl →
      pl.items.length = res.prefixes.length ∧
      ∀ k (hk : k < res.prefixes.length) (hk2 : k < pl.items.length),
        protoPrefixToPrefixEntry i (res.prefixes.get ⟨k, hk⟩) =
          .ok (pl.items.get ⟨k, hk2⟩)) ∧
    (∀ i res pl, listLoadBalancerPrefixesCall i res = .ok pl →
      pl.items.length = res.prefixes.length ∧
      ∀ k (hk : k < res.prefixes.length) (hk2 : k < pl.items.length),
        protoPrefixToPrefixEntry i
            (protoLBPrefixToProtoPrefixMsg (res.prefixes.get ⟨k, hk⟩)) =
          .ok (pl.items.get ⟨k, hk2⟩)) ∧
    (∀ res il, listInterfacesCall res = .ok il →
      il.items.length = res.interfaces.length ∧
      ∀ k (hk : k < res.interfaces.length) (hk2 : k < il.items.length),
        protoInterfaceToInterface (res.interfaces.get ⟨k, hk⟩) =
          .ok (il.items.get ⟨k, hk2⟩)) ∧
    (∀ vni res rl, listRoutesCall vni res = .ok rl →
      rl.items.length = res.routes.length ∧
      ∀ k (hk : k < res.routes.length) (hk2 : k < rl.items.length),
        protoRouteToRoute vni (res.routes.get ⟨k, hk⟩) =
          .ok (rl.items.get ⟨k, hk2⟩)) ∧
    (∀ id res tl, getLoadBalancerTargetsCall id res = .ok tl →
      tl.items.length = res.targetIPs.length ∧
      ∀ k (hk : k < res.targetIPs.length) (hk2 : k < tl.items.length),
        tl.items.get ⟨k, hk2⟩ =
          { typeMeta := ⟨LoadBalancerTargetKind⟩
            meta := { id := id }
            spec := { targetIP := protoLbipToLbip (res.targetIPs.get ⟨k, hk⟩) } }) := by
  refine ⟨?_, ?_, ?_, ?_, ?_⟩
  · intro i res pl h
    rcases ht : translateAll (protoPrefixToPrefixEntry i) res.prefixes with e | ys
    · simp [listPrefixesCall, ht] at h
    · simp only [listPrefixesCall, ht, Except.ok.injEq] at h
      subst h
      refine ⟨by simpa using translateAll_ok_length _ _ _ ht, ?_⟩
      intro k hk hk2
      have hk3 : k < ys.length := by simpa using hk2
      exact translateAll_ok_get _ _ _ ht k hk hk3
  · intro i res pl h
    rcases ht : translateAll
        (fun p => protoPrefixToPrefixEntry i (protoLBPrefixToProtoPrefixMsg p))
        res.prefixes with e | ys
    · simp [listLoadBalancerPrefixesCall, ht] at h
    · simp only [listLoadBalancerPrefixesCall, ht, Except.ok.injEq] at h
      subst h
      refine ⟨by simpa using translateAll_ok_length _ _ _ ht, ?_⟩
      intro k hk hk2
      have hk3 : k < ys.length := by simpa using hk2
      exact translateAll_ok_get _ _ _ ht k hk hk3
  · intro res il h
    rcases ht : translateAll protoInterfaceToInterface res.interfaces with e | ys
    · simp [listInterfacesCall, ht] at h
    · simp only [listInterfacesCall, ht, Except.ok.injEq] at h
      subst h
      refine ⟨by simpa using translateAll_ok_length _ _ _ ht, ?_⟩
      intro k hk hk2
      have hk3 : k < ys.length := by simpa using hk2
      exact translateAll_ok_get _ _ _ ht k hk hk3
  · intro vni res rl h
    rcases ht : translateAll (protoRouteToRoute vni) res.routes with e | ys
    · simp [listRoutesCall, ht] at h
    · simp only [listRoutesCall, ht, Except.ok.injEq] at h
      subst h
      refine ⟨by simpa using translateAll_ok_length _ _ _ ht, ?_⟩
      intro k hk hk2
      have hk3 : k < ys.length := by simpa using hk2
      exact translateAll_ok_get _ _ _ ht k hk hk3
  · intro id res tl h
    by_cases hs : res.status.error = 0
    · simp [getLoadBalancerTargetsCall, hs] at h
      subst h
      constructor
      · simp
      · intro k hk hk2
        simp [List.get_eq_getElem, List.getElem_map]
    · simp [getLoadBalancerTargetsCall, hs] at h

/-- C9 witness: ListRoutes at a concrete one-element response yields a
one-element list. -/
theorem c9_witness :
    ({ typeMeta := ⟨RouteListKind⟩
       items := [{ typeMeta := ⟨RouteKind⟩
                   meta := { vni := 100, pfx := ⟨.v4 10 0 0 0, 24⟩
                             nextHop := { vni := 200,
                                          ip := .v6 65408 0 0 0 0 0 0 1 } }
                   spec := {} }] } : RouteList).items.length =
      ({ status := { error := 0, message := "" }
         routes := [{ ipVersion := IPVersion.IPv4, weight := 100
                      pfx := ⟨IPVersion.IPv4, "10.0.0.0", 24⟩
                      nexthopVNI := 200
                      nexthopAddress := "ff80:0:0:0:0:0:0:1" }] } :
        ListRoutesResponse).routes.length :=
  (c9_theorem.2.2.2.1 100
    { status := { error := 0, message := "" }
      routes := [{ ipVersion := IPVersion.IPv4, weight := 100
                   pfx := ⟨IPVersion.IPv4, "10.0.0.0", 24⟩
                   nexthopVNI := 200
                   nexthopAddress := "ff80:0:0:0:0:0:0:1" }] }
    { typeMeta := ⟨RouteListKind⟩
      items := [{ typeMeta := ⟨RouteKind⟩
                  meta := { vni := 100, pfx := ⟨.v4 10 0 0 0, 24⟩
                            nextHop := { vni := 200,
                                         ip := .v6 65408 0 0 0 0 0 0 1 } }
                  spec := {} }] } rfl).1


/-- C10 (confirmed): on a successful response CreateLoadBalancer and CreateNat
write the parsed underlay route into the caller-supplied struct's spec before
building the result — the input struct does not remain unchanged across the
call whenever its stored underlay route differed, while every other input
field is left unmodified (and on the failure paths the input is untouched). -/
theorem c10_theorem :
    (∀ lb res ur, res.status.error = 0 → parseAddr res.underlayRoute = some ur →
      (createLoadBalancerCall lb res).1 =
        { lb with spec := { lb.spec with underlayRoute := some ur } } ∧
      (lb.spec.underlayRoute ≠ some ur → (createLoadBalancerCall lb res).1 ≠ lb)) ∧
    (∀ nat res ur, res.status.error = 0 → parseAddr res.underlayRoute = some ur →
      (createNatCall nat res).1 =
        { nat with spec := { nat.spec with underlayRoute := some ur } } ∧
      (nat.spec.underlayRoute ≠ some ur → (createNatCall nat res).1 ≠ nat)) ∧
    (∀ lb res, res.status.error ≠ 0 → (createLoadBalancerCall lb res).1 = lb) ∧
    (∀ nat res, res.status.error ≠ 0 → (createNatCall nat res).1 = nat) ∧
    (∀ lb res, parseAddr res.underlayRoute = none →
      (createLoadBalancerCall lb res).1 = lb) ∧
    (∀ nat res, parseAddr res.underlayRoute = none →
      (createNatCall nat res).1 = nat) := by
  refine ⟨?_, ?_, ?_, ?_, ?_, ?_⟩
  · intro lb res ur hs hp
    have h1 : (createLoadBalancerCall lb res).1 =
        { lb with spec := { lb.spec with underlayRoute := some ur } } := by
      simp [createLoadBalancerCall, hs, hp]
    refine ⟨h1, fun hne heq => hne ?_⟩
    exact congrArg (fun x : LoadBalancer => x.spec.underlayRoute)
      (heq.symm.trans h1)
  · intro nat res ur hs hp
    have h1 : (createNatCall nat res).1 =
        { nat with spec := { nat.spec with underlayRoute := some ur } } := by
      simp [createNatCall, hs, hp]
    refine ⟨h1, fun hne heq => hne ?_⟩
    exact congrArg (fun x : ApiNat => x.spec.underlayRoute) (heq.symm.trans h1)
  · intro lb res hs
    simp [createLoadBalancerCall, hs]
  · intro nat res hs
    simp [createNatCall, hs]
  · intro lb res hp
    by_cases hs : res.status.error = 0
    · simp [createLoadBalancerCall, hs, hp]
    · simp [createLoadBalancerCall, hs]
  · intro nat res hp
    by_cases hs : res.status.error = 0
    · simp [createNatCall, hs, hp]
    · simp [createNatCall, hs]

/-- C10 witness: CreateLoadBalancer at a concrete success response both
mutates the input's underlay route and leaves it otherwise intact. -/
theorem c10_witness :
    (createLoadBalancerCall
      { typeMeta := ⟨LoadBalancerKind⟩
        meta := { id := "4" }
        spec := { vni := 100, lbVipIP := .v4 10 20 30 40
                  lbports := [⟨6, 443⟩, ⟨17, 53⟩], underlayRoute := none }
        status := { error := 0, message := "" } }
      { status := { error := 0, message := "" }
        underlayRoute := "ff80:0:0:0:0:0:0:5" }).1 =
      { typeMeta := ⟨LoadBalancerKind⟩
        meta := { id := "4" }
        spec := { vni := 100, lbVipIP := .v4 10 20 30 40
                  lbports := [⟨6, 443⟩, ⟨17, 53⟩]
                  underlayRoute := some (.v6 65408 0 0 0 0 0 0 5) }
        status := { error := 0, message := "" } } :=
  (c10_theorem.1
    { typeMeta := ⟨LoadBalancerKind⟩
      meta := { id := "4" }
      spec := { vni := 100, lbVipIP := .v4 10 20 30 40
                lbports := [⟨6, 443⟩, ⟨17, 53⟩], underlayRoute := none }
      status := { error := 0, message := "" } }
    { status := { error := 0, message := "" }
      underlayRoute := "ff80:0:0:0:0:0:0:5" }
    (.v6 65408 0 0 0 0 0 0 5) rfl (by decide)).1
